import Mathlib

/-!
Phonon smart-card command catalog and status-word resolver

A shallow embedding of `pkg/backend/smartcard/apdu.go`: the instruction and
status-word constants, the `Command` descriptor with its per-command error
table, the resolver `HumanReadableErr`, and every `NewCommand*` constructor.
The public-key parser exercised by `internal/util/crypto_test.go` is modelled
from the spec, together with the vectors of that test.
The handshake state machine of the spec, which is not among the sources, is
modelled from the spec as far as the order of its steps goes.

Conventions of the embedding

* A Go `byte`/`uint8`/`uint16` is a `Nat`, a `[]byte` is a `List Nat`; no
  definition below performs arithmetic on them, so no wrap-around can occur.
* Untyped Go integer constants (`SW_*`) and Go `int` map keys are `Int`.
* A Go `error` is `Option GoError`; `none` is the `nil` error.  An error made
  by `errors.New` is represented by its message text, the package-level error
  variables of `backend` and `util` by their names.
* A Go `map[int]error` is `Option (List (Int × error))`: `none` is the nil map,
  `some es` a map built from the literal whose entries are `es`, in source order.
-/

/-! ## Errors -/

/-- Modelled from the spec: the package-level error variables of package
`backend` that `apdu.go` refers to. Their declarations are not part of the
sources at hand; the spec calls them the well-known domain errors ("PIN not
entered", "phonon table full", "invalid phonon index", "certificate locked")
and the default "unspecified card error". One constructor per variable. -/
inductive BackendErr where
  | ErrDefault
  | ErrPINNotEntered
  | ErrPhononTableFull
  | ErrInvalidPhononIndex
  | ErrCertLocked
  | ErrInvalidKeyLength
  | ErrMiningFailed
deriving DecidableEq, Repr

/-- Modelled from the spec: the package-level error variable of package `util`
that the test of `ParseECCPubKey` compares against. Its declaration is not part
of the sources at hand; the spec calls it the specific "invalid format" error. -/
inductive UtilErr where
  | ErrInvalidECCPubKeyFormat
deriving DecidableEq, Repr

/-- A non-nil Go error value: one of the `backend` variables, the `util`
variable, or a value made by `errors.New`, which is represented by its message. -/
inductive GoError where
  | backendVar (e : BackendErr)
  | utilVar (e : UtilErr)
  | errorString (text : String)
deriving DecidableEq, Repr

/-- The Go interface type `error`; `none` is `nil`. -/
abbrev error := Option GoError

/-- The Go value `nil` of type `error`. -/
abbrev nil : error := none

namespace errors

/-- The standard library function `errors.New`: a non-nil error carrying `text`. -/
def New (text : String) : error := some (GoError.errorString text)

end errors

namespace backend

/-- Modelled from the spec: `backend.ErrDefault`, the default unspecified card error. -/
def ErrDefault : error := some (GoError.backendVar BackendErr.ErrDefault)
/-- Modelled from the spec: `backend.ErrPINNotEntered`, the "PIN not entered" domain error. -/
def ErrPINNotEntered : error := some (GoError.backendVar BackendErr.ErrPINNotEntered)
/-- Modelled from the spec: `backend.ErrPhononTableFull`, the "phonon table full" domain error. -/
def ErrPhononTableFull : error := some (GoError.backendVar BackendErr.ErrPhononTableFull)
/-- Modelled from the spec: `backend.ErrInvalidPhononIndex`, the "invalid phonon index" domain error. -/
def ErrInvalidPhononIndex : error := some (GoError.backendVar BackendErr.ErrInvalidPhononIndex)
/-- Modelled from the spec: `backend.ErrCertLocked`, the dedicated "certificate locked" error. -/
def ErrCertLocked : error := some (GoError.backendVar BackendErr.ErrCertLocked)
/-- Modelled from the spec: `backend.ErrInvalidKeyLength`, a domain error of package `backend`. -/
def ErrInvalidKeyLength : error := some (GoError.backendVar BackendErr.ErrInvalidKeyLength)
/-- Modelled from the spec: `backend.ErrMiningFailed`, the domain error for status "mining failed". -/
def ErrMiningFailed : error := some (GoError.backendVar BackendErr.ErrMiningFailed)

end backend

namespace util

/-- Modelled from the spec: `util.ErrInvalidECCPubKeyFormat`, the specific
"invalid format" error of the public-key parser. -/
def ErrInvalidECCPubKeyFormat : error :=
  some (GoError.utilVar UtilErr.ErrInvalidECCPubKeyFormat)

/-- Modelled from the spec: a parsed elliptic-curve public key, in the form in
which its encoding was accepted: uncompressed (the 64 bytes X‖Y that follow the
byte 0x04) or compressed (the leading byte 0x02 or 0x03 and the 32 bytes X). -/
inductive ECCPubKey where
  | uncompressed (xy : List Nat)
  | compressed (lead : Nat) (x : List Nat)
deriving DecidableEq, Repr

/-- Modelled from the spec: the function `util.ParseECCPubKey`, of which only the
test `TestParseECCPubKey` is among the sources at hand. By the spec a 65-byte
buffer starting with 0x04 is accepted as uncompressed, a 33-byte buffer
starting with 0x02 or 0x03 is accepted as compressed, and a buffer with any
other leading byte is rejected with the specific "invalid format" error. The
result `some (key, err)` is the Go result pair; the result is `none` for the
buffers on which the spec fixes no outcome (the empty buffer, and a leading
byte 0x02, 0x03 or 0x04 followed by another number of bytes). -/
def ParseECCPubKey (rawKey : List Nat) : Option (Option ECCPubKey × error) :=
  match rawKey with
  | [] => none
  | lead :: rest =>
    if lead = 0x04 then
      if rest.length = 64 then some (some (ECCPubKey.uncompressed rest), nil) else none
    else if lead = 0x02 ∨ lead = 0x03 then
      if rest.length = 32 then some (some (ECCPubKey.compressed lead rest), nil) else none
    else
      some (none, ErrInvalidECCPubKeyFormat)

/-- The vector `uncompressedKey` of `TestParseECCPubKey`. -/
def uncompressedKey : List Nat := [
  0x04,
  0x5c, 0xfd, 0xf7, 0x7a, 0x00, 0xb4, 0xb6, 0xb4,
  0xa5, 0xb8, 0xbb, 0x26, 0xb5, 0x49, 0x7d, 0xbc,
  0x7a, 0x4d, 0x01, 0xcb, 0xef, 0xd7, 0xaa, 0xea,
  0xf5, 0xf6, 0xf8, 0xf8, 0x86, 0x59, 0x76, 0xe7,
  0x94, 0x1a, 0xb0, 0xec, 0x16, 0x51, 0x20, 0x9c,
  0x44, 0x40, 0x09, 0xfd, 0x48, 0xd9, 0x25, 0xa1,
  0x7d, 0xe5, 0x04, 0x0b, 0xa4, 0x7e, 0xaf, 0x3f,
  0x5b, 0x51, 0x72, 0x0d, 0xd4, 0x0b, 0x2f, 0x9d]

/-- The vector `compressedPositiveKey` of `TestParseECCPubKey`. -/
def compressedPositiveKey : List Nat := [
  0x02,
  0xb4, 0x63, 0x2d, 0x08, 0x48, 0x5f, 0xf1, 0xdf,
  0x2d, 0xb5, 0x5b, 0x9d, 0xaf, 0xd2, 0x33, 0x47,
  0xd1, 0xc4, 0x7a, 0x45, 0x70, 0x72, 0xa1, 0xe8,
  0x7b, 0xe2, 0x68, 0x96, 0x54, 0x9a, 0x87, 0x37]

/-- The vector `invalidKey` of `TestParseECCPubKey`: the uncompressed key with
its leading byte changed to 0x05. -/
def invalidKey : List Nat := [
  0x05,
  0x5c, 0xfd, 0xf7, 0x7a, 0x00, 0xb4, 0xb6, 0xb4,
  0xa5, 0xb8, 0xbb, 0x26, 0xb5, 0x49, 0x7d, 0xbc,
  0x7a, 0x4d, 0x01, 0xcb, 0xef, 0xd7, 0xaa, 0xea,
  0xf5, 0xf6, 0xf8, 0xf8, 0x86, 0x59, 0x76, 0xe7,
  0x94, 0x1a, 0xb0, 0xec, 0x16, 0x51, 0x20, 0x9c,
  0x44, 0x40, 0x09, 0xfd, 0x48, 0xd9, 0x25, 0xa1,
  0x7d, 0xe5, 0x04, 0x0b, 0xa4, 0x7e, 0xaf, 0x3f,
  0x5b, 0x51, 0x72, 0x0d, 0xd4, 0x0b, 0x2f, 0x9d]

end util

/-! ## Strings and the APDU library types -/

/-- A Go `string`: an immutable sequence of bytes. -/
structure GoString where
  bytes : List Nat
deriving DecidableEq, Repr

/-- The Go conversion `[]byte(s)`: a slice holding the bytes of `s`. -/
def GoString.toBytes (s : GoString) : List Nat := s.bytes

namespace apdu

/-- Modelled from the spec: the library type `apdu.Command`, whose declaration
is outside the sources at hand. The spec gives a command the fields
instruction class, instruction code, parameter 1, parameter 2 and payload. -/
structure Command where
  Cla : Nat
  Ins : Nat
  P1 : Nat
  P2 : Nat
  Data : List Nat
deriving DecidableEq, Repr

/-- Modelled from the spec: the library function `apdu.NewCommand(cla, ins, p1,
p2, data)`, which is outside the sources at hand. By the spec the wrapping
performs no transformation: each argument is stored in the field of its name. -/
def NewCommand (cla ins p1 p2 : Nat) (data : List Nat) : Command :=
  { Cla := cla, Ins := ins, P1 := p1, P2 := p2, Data := data }

/-- Modelled from the spec: the library type `apdu.Response`, whose declaration
is outside the sources at hand: the response data and the status word
`Sw = SW1 << 8 | SW2`. -/
structure Response where
  Data : List Nat
  Sw : Nat
deriving DecidableEq, Repr

end apdu

/-- The functions and constants of the wrapped card libraries (`globalplatform`,
`gridplus`, `keycard`, `crypto/ecdsa`) that `apdu.go` calls and whose code is
outside the sources at hand. They are parameters of the embedding. -/
structure Lib where
  /-- The type of values of `*ecdsa.PublicKey`. -/
  PublicKey : Type
  /-- The constant `globalplatform.ClaGp`. -/
  ClaGp : Nat
  /-- The constant `globalplatform.ClaISO7816`. -/
  ClaISO7816 : Nat
  /-- The function `globalplatform.NewCommandSelect`. -/
  NewCommandSelect : List Nat → apdu.Command
  /-- The function `gridplus.NewAPDUPairStep1`. -/
  NewAPDUPairStep1 : List Nat → PublicKey → apdu.Command
  /-- The function `gridplus.NewAPDUPairStep2`. -/
  NewAPDUPairStep2 : List Nat → apdu.Command
  /-- The function `keycard.NewCommandUnpair`. -/
  NewCommandUnpair : Nat → apdu.Command
  /-- The function `keycard.NewCommandOpenSecureChannel`. -/
  NewCommandOpenSecureChannel : Nat → List Nat → apdu.Command
  /-- The function `keycard.NewCommandMutuallyAuthenticate`. -/
  NewCommandMutuallyAuthenticate : List Nat → apdu.Command
  /-- The function `keycard.NewCommandInit`. -/
  NewCommandInit : List Nat → apdu.Command

namespace smartcard

/-! ## Constants (apdu.go, lines 14-71) -/

abbrev maxAPDULength : Nat := 256

abbrev InsIdentifyCard : Nat := 0x14
abbrev InsLoadCert : Nat := 0x15
abbrev InsVerifyPIN : Nat := 0x20
abbrev InsChangePIN : Nat := 0x21
abbrev InsCreatePhonon : Nat := 0x30
abbrev InsSetDescriptor : Nat := 0x31
abbrev InsListPhonons : Nat := 0x32
abbrev InsGetPhononPubKey : Nat := 0x33
abbrev InsDestroyPhonon : Nat := 0x34
abbrev InsSendPhonons : Nat := 0x35
abbrev InsRecvPhonons : Nat := 0x36
abbrev InsSetRecvList : Nat := 0x37
abbrev InsTransactionAck : Nat := 0x38
abbrev InsInitCardPairing : Nat := 0x50
abbrev InsCardPair : Nat := 0x51
abbrev InsCardPair2 : Nat := 0x52
abbrev InsFinalizeCardPair : Nat := 0x53
abbrev InsGenerateInvoice : Nat := 0x54
abbrev InsGetFriendlyName : Nat := 0x56
abbrev InsSetFriendlyName : Nat := 0x57
abbrev InsLoadCA : Nat := 0x58
abbrev InsReceiveInvoice : Nat := 0x55
abbrev InsGetAvailableMemory : Nat := 0x99
abbrev InsMineNativePhonon : Nat := 0x41

abbrev SW_APPLET_SELECT_FAILED : Int := 0x6999
abbrev SW_BYTES_REMAINING_00 : Int := 0x6100
abbrev SW_CLA_NOT_SUPPORTED : Int := 0x6E00
abbrev SW_COMMAND_CHAINING_NOT_SUPPORTED : Int := 0x6884
abbrev SW_COMMAND_NOT_ALLOWED : Int := 0x6986
abbrev SW_CONDITIONS_NOT_SATISFIED : Int := 0x6985
abbrev SW_CORRECT_LENGTH_00 : Int := 0x6C00
abbrev SW_DATA_INVALID : Int := 0x6984
abbrev SW_FILE_FULL : Int := 0x6A84
abbrev SW_FILE_INVALID : Int := 0x6983
abbrev SW_FILE_NOT_FOUND : Int := 0x6A82
abbrev SW_FUNC_NOT_SUPPORTED : Int := 0x6A81
abbrev SW_INCORRECT_P1P2 : Int := 0x6A86
abbrev SW_INS_NOT_SUPPORTED : Int := 0x6D00
abbrev SW_LAST_COMMAND_EXPECTED : Int := 0x6883
abbrev SW_LOGICAL_CHANNEL_NOT_SUPPORTED : Int := 0x6881
abbrev SW_NO_ERROR : Int := 0x9000
abbrev SW_RECORD_NOT_FOUND : Int := 0x6A83
abbrev SW_SECURE_MESSAGING_NOT_SUPPORTED : Int := 0x6882
abbrev SW_SECURITY_STATUS_NOT_SATISFIED : Int := 0x6982
abbrev SW_UNKNOWN : Int := 0x6F00
abbrev SW_WARNING_STATE_UNCHANGED : Int := 0x6200
abbrev SW_WRONG_DATA : Int := 0x6A80
abbrev SW_WRONG_LENGTH : Int := 0x6700
abbrev SW_WRONG_P1P2 : Int := 0x6B00
abbrev SW_MINING_FAILED : Int := 0x9001
abbrev SW_PIN_VERIFY_FAILED : Int := 0x63c

/-! ## Command descriptor and resolver (apdu.go, lines 73-89) -/

/-- The type `CmdErrTable`, a Go `map[int]error`. `none` is the nil map; `some es`
is the map built by a literal with the entries `es`, in source order. -/
abbrev CmdErrTable := Option (List (Int × error))

/-- Go map indexing on the entries of a map: the value bound to `key` and
`true`, or the zero value `nil` and `false` when no entry has that key. -/
def lookupEntries : List (Int × error) → Int → error × Bool
  | [], _ => (nil, false)
  | (k, v) :: rest, key => if k = key then (v, true) else lookupEntries rest key

/-- The two-result index expression `m[key]` of Go; indexing the nil map yields
the zero value and `false`. -/
def CmdErrTable.index (m : CmdErrTable) (key : Int) : error × Bool :=
  match m with
  | none => (nil, false)
  | some es => lookupEntries es key

/-- The keys written in a table, in source order (none for the nil map). -/
def CmdErrTable.keys (m : CmdErrTable) : List Int :=
  match m with
  | none => []
  | some es => es.map Prod.fst

/-- The entries written in a table, in source order (none for the nil map). -/
def CmdErrTable.entries (m : CmdErrTable) : List (Int × error) :=
  match m with
  | none => []
  | some es => es

/-- The values written in a table, in source order (none for the nil map). -/
def CmdErrTable.values (m : CmdErrTable) : List error :=
  match m with
  | none => []
  | some es => es.map Prod.snd

/-- The struct `Command`. -/
structure Command where
  ApduCmd : apdu.Command
  PossibleErrs : CmdErrTable
deriving DecidableEq, Repr

/-- The method `(cmd *Command) HumanReadableErr(res *apdu.Response) error`. -/
def Command.HumanReadableErr (cmd : Command) (res : apdu.Response) : error :=
  let (err, found) := cmd.PossibleErrs.index (res.Sw : Int)
  if found then
    err
  else if (res.Sw : Int) ≠ SW_NO_ERROR then
    backend.ErrDefault
  else
    nil

/-! ## The command catalog (apdu.go, lines 91-580) -/

def NewCommandIdentifyCard (lib : Lib) (nonce : List Nat) : Command :=
  { ApduCmd := apdu.NewCommand lib.ClaGp InsIdentifyCard 0 0 nonce
    PossibleErrs := some [
      (SW_DATA_INVALID, errors.New "received Challenge is not correct length")] }

def NewCommandVerifyPIN (lib : Lib) (pin : GoString) : Command :=
  { ApduCmd := apdu.NewCommand lib.ClaGp InsVerifyPIN 0 0 pin.toBytes
    PossibleErrs := some [
      (SW_PIN_VERIFY_FAILED, errors.New "pin verification failed")] }

def NewCommandChangePIN (lib : Lib) (pin : GoString) : Command :=
  { ApduCmd := apdu.NewCommand lib.ClaGp InsChangePIN 0 0 pin.toBytes
    PossibleErrs := some [
      (SW_CONDITIONS_NOT_SATISFIED, backend.ErrPINNotEntered),
      (SW_INCORRECT_P1P2, errors.New "parameter neither change user pin or change pairing secret")] }

def NewCommandCreatePhonon (lib : Lib) (curveType : Nat) : Command :=
  { ApduCmd := apdu.NewCommand lib.ClaISO7816 InsCreatePhonon curveType 0x00 [0x00]
    PossibleErrs := some [
      (SW_FILE_FULL, backend.ErrPhononTableFull),
      (SW_CONDITIONS_NOT_SATISFIED, backend.ErrPINNotEntered)] }

def NewCommandSetDescriptor (lib : Lib) (data : List Nat) : Command :=
  { ApduCmd := apdu.NewCommand lib.ClaGp InsSetDescriptor 0x00 0x00 data
    PossibleErrs := some [
      (SW_CONDITIONS_NOT_SATISFIED, backend.ErrPINNotEntered),
      (SW_WRONG_LENGTH, errors.New "wrong data length"),
      (SW_FILE_INVALID, backend.ErrInvalidPhononIndex),
      (SW_FILE_INVALID + 1, errors.New "phonon does not exist"),
      (SW_FILE_INVALID + 3, errors.New "phonon does not exist"),
      (SW_FILE_INVALID + 4, errors.New "unable to decode Currency TLV"),
      (SW_FILE_INVALID + 5, errors.New "unable to set currency type to 0x00"),
      (SW_FILE_INVALID + 6, errors.New "unable to decode Phonon Value TLV"),
      (SW_FUNC_NOT_SUPPORTED, errors.New "phonon type not supported")] }

def NewCommandListPhonons (lib : Lib) (p1 : Nat) (p2 : Nat) (data : List Nat) : Command :=
  { ApduCmd := apdu.NewCommand lib.ClaISO7816 InsListPhonons p1 p2 data
    PossibleErrs := some [
      (SW_WRONG_DATA, errors.New "no remaining phonons to list"),
      (SW_WRONG_DATA + 1, errors.New "unable to decode phonon filter TLV"),
      (SW_WRONG_DATA + 2, errors.New "unable to decode phonon currency TLV"),
      (SW_WRONG_DATA + 3, errors.New "unable to decode less than TLV"),
      (SW_WRONG_DATA + 4, errors.New "unable to decode greater than TLV"),
      (SW_CONDITIONS_NOT_SATISFIED, backend.ErrPINNotEntered),
      (SW_INCORRECT_P1P2, errors.New "incorrect parameters received")] }

def NewCommandGetPhononPubKey (lib : Lib) (data : List Nat) : Command :=
  { ApduCmd := apdu.NewCommand lib.ClaISO7816 InsGetPhononPubKey 0x00 0x00 data
    PossibleErrs := some [
      (SW_CONDITIONS_NOT_SATISFIED, backend.ErrPINNotEntered),
      (SW_WRONG_LENGTH, errors.New "data length incorrect"),
      (SW_WRONG_DATA, errors.New "phonon index invalid"),
      (SW_FILE_INVALID, backend.ErrInvalidPhononIndex),
      (SW_FILE_INVALID + 1, errors.New "phonon at index exceeds available phonon list"),
      (SW_FILE_INVALID + 3, errors.New "phonon at index is null"),
      (SW_FILE_NOT_FOUND, errors.New "phonon not initialized")] }

def NewCommandDestroyPhonon (lib : Lib) (data : List Nat) : Command :=
  { ApduCmd := apdu.NewCommand lib.ClaISO7816 InsDestroyPhonon 0x00 0x00 data
    PossibleErrs := some [
      (SW_CONDITIONS_NOT_SATISFIED, backend.ErrPINNotEntered),
      (SW_WRONG_LENGTH, errors.New "incoming length wrong"),
      (SW_WRONG_DATA, errors.New "invalid phonon index"),
      (SW_FILE_INVALID, backend.ErrInvalidPhononIndex),
      (SW_FILE_INVALID + 1, errors.New "phononon doesn't exist"),
      -- adding 2 doesn't work because it conflicts with another error
      (SW_FILE_INVALID + 3, errors.New "phonon already deleted")] }

def NewCommandSendPhonons (lib : Lib) (data : List Nat) (p2Length : Nat)
    (extendedRequest : Bool) : Command :=
  let p1 : Nat := if extendedRequest then 0x01 else 0x00
  { ApduCmd := apdu.NewCommand lib.ClaISO7816 InsSendPhonons p1 p2Length data
    PossibleErrs := some [
      (SW_CONDITIONS_NOT_SATISFIED, backend.ErrPINNotEntered),
      (SW_INCORRECT_P1P2, errors.New "phononList continue greater than 1"),
      (SW_INCORRECT_P1P2 + 1, errors.New "no Phonons Requested"),
      (SW_WRONG_DATA, errors.New "incorrect phonon index")] }

def NewCommandReceivePhonons (lib : Lib) (phononTransferPacket : List Nat) : Command :=
  { ApduCmd := apdu.NewCommand lib.ClaISO7816 InsRecvPhonons 0x00 0x00 phononTransferPacket
    PossibleErrs := some [
      (SW_CONDITIONS_NOT_SATISFIED, errors.New "phonon recipt conditions not met"),
      (SW_FILE_FULL, errors.New "maximum number of phonons exceeded"),
      (SW_WRONG_DATA, errors.New "unable to decode phonon key list TLV")] }

def NewCommandSetReceiveList (lib : Lib) (data : List Nat) : Command :=
  { ApduCmd := apdu.NewCommand lib.ClaISO7816 InsSetRecvList 0x00 0x00 data
    PossibleErrs := some [
      (SW_CONDITIONS_NOT_SATISFIED, backend.ErrPINNotEntered),
      (SW_FILE_FULL, errors.New "no phonon with index passed"),
      (SW_WRONG_DATA, errors.New "unable to decode Phonon key list TLV"),
      (SW_WRONG_DATA + 1, errors.New "unable to decode phonon key TLV")] }

def NewCommandTransactionAck (lib : Lib) (data : List Nat) : Command :=
  { ApduCmd := apdu.NewCommand lib.ClaISO7816 InsTransactionAck 0x00 0x00 data
    PossibleErrs := some [
      (SW_CONDITIONS_NOT_SATISFIED, backend.ErrPINNotEntered),
      (SW_WRONG_DATA, errors.New "unable to decode TLV tag")] }

def NewCommandInitCardPairing (lib : Lib) (data : List Nat) : Command :=
  { ApduCmd := apdu.NewCommand lib.ClaGp InsInitCardPairing 0x00 0x00 data
    PossibleErrs := some [
      (SW_CONDITIONS_NOT_SATISFIED, backend.ErrPINNotEntered),
      (SW_WRONG_DATA, errors.New "unable to decode certificate TLV"),
      (SW_COMMAND_NOT_ALLOWED, errors.New "card certificate not initialized")] }

def NewCommandCardPair (lib : Lib) (data : List Nat) : Command :=
  { ApduCmd := apdu.NewCommand lib.ClaGp InsCardPair 0x00 0x00 data
    PossibleErrs := some [
      (SW_CONDITIONS_NOT_SATISFIED, backend.ErrPINNotEntered),
      (SW_WRONG_DATA, errors.New "unable to decode card certificate TLV"),
      (SW_WRONG_DATA + 1, errors.New "unable to decode salt TLV")] }

def NewCommandCardPair2 (lib : Lib) (data : List Nat) : Command :=
  { ApduCmd := apdu.NewCommand lib.ClaGp InsCardPair2 0x00 0x00 data
    PossibleErrs := some [
      (SW_CONDITIONS_NOT_SATISFIED, backend.ErrPINNotEntered),
      (SW_WRONG_DATA, errors.New "unable to read salt"),
      (SW_WRONG_DATA + 1, errors.New "unable to read AES TLV"),
      (SW_WRONG_DATA + 2, errors.New "unable to read signature TLV")] }

def NewCommandFinalizeCardPair (lib : Lib) (data : List Nat) : Command :=
  { ApduCmd := apdu.NewCommand lib.ClaGp InsFinalizeCardPair 0x00 0x00 data
    PossibleErrs := some [
      -- No idea how you can get this far without validating a pin
      (SW_CONDITIONS_NOT_SATISFIED, backend.ErrPINNotEntered),
      (SW_WRONG_DATA, errors.New "unable to read receiver signature TLV"),
      (SW_SECURITY_STATUS_NOT_SATISFIED, errors.New "unable to verify signature")] }

def NewCommandLoadCertAuthority (lib : Lib) (data : List Nat) : Command :=
  { ApduCmd := apdu.NewCommand lib.ClaGp InsLoadCA 0x00 0x00 data
    PossibleErrs := some [
      (SW_FUNC_NOT_SUPPORTED, backend.ErrCertLocked),
      (SW_WRONG_DATA, backend.ErrInvalidKeyLength)] }

def NewCommandInstallCert (lib : Lib) (data : List Nat) : Command :=
  { ApduCmd := apdu.NewCommand lib.ClaGp InsLoadCert 0x00 0x00 data
    PossibleErrs := some [
      (SW_COMMAND_NOT_ALLOWED, backend.ErrCertLocked),
      (SW_DATA_INVALID, errors.New "unable to save certificate")] }

/-- The application identifier of the phonon applet. -/
def phononAID : List Nat := [0xA0, 0x00, 0x00, 0x08, 0x20, 0x00, 0x03, 0x01]

def NewCommandSelectPhononApplet (lib : Lib) : Command :=
  { ApduCmd := lib.NewCommandSelect phononAID
    -- no errors known
    PossibleErrs := some [] }

def NewCommandPairStep1 (lib : Lib) (salt : List Nat) (pairingPubKey : lib.PublicKey) : Command :=
  { ApduCmd := lib.NewAPDUPairStep1 salt pairingPubKey
    PossibleErrs := some [
      (SW_WRONG_DATA, errors.New "data incorrect size"),
      (SW_SECURE_MESSAGING_NOT_SUPPORTED, errors.New "no certificate loaded"),
      (SW_SECURITY_STATUS_NOT_SATISFIED, errors.New "unable to compute ECDH secrets")] }

/-- The argument is the 32-byte array `cryptogram`; `cryptogram[0:]` is the slice
of all its bytes. -/
def NewCommandPairStep2 (lib : Lib) (cryptogram : List Nat) : Command :=
  { ApduCmd := lib.NewAPDUPairStep2 cryptogram
    PossibleErrs := some [
      (SW_WRONG_DATA, errors.New "wrong secret length"),
      (SW_SECURITY_STATUS_NOT_SATISFIED, errors.New "client cryptogram differs from expected")] }

def NewCommandUnpair (lib : Lib) (index : Nat) : Command :=
  { ApduCmd := lib.NewCommandUnpair index
    -- No errors known
    PossibleErrs := some [] }

def NewCommandOpenSecureChannel (lib : Lib) (index : Nat) (publicKey : List Nat) : Command :=
  { ApduCmd := lib.NewCommandOpenSecureChannel index publicKey
    PossibleErrs := some [
      (SW_INCORRECT_P1P2, errors.New "incorrect parameters"),
      (SW_SECURITY_STATUS_NOT_SATISFIED, errors.New "unable to generate secret")] }

def NewCommandMutualAuthenticate (lib : Lib) (data : List Nat) : Command :=
  { ApduCmd := lib.NewCommandMutuallyAuthenticate data
    PossibleErrs := some [
      (SW_CONDITIONS_NOT_SATISFIED, errors.New "authentication key not initialized"),
      (SW_LOGICAL_CHANNEL_NOT_SUPPORTED, errors.New "already mutually authenticated"),
      (SW_SECURITY_STATUS_NOT_SATISFIED, errors.New "secret length invalid")] }

def NewCommandInit (lib : Lib) (data : List Nat) : Command :=
  { ApduCmd := lib.NewCommandInit data
    -- No errors known
    PossibleErrs := some [] }

def NewCommandGenerateInvoice (lib : Lib) : Command :=
  { ApduCmd := apdu.NewCommand lib.ClaGp InsGenerateInvoice 0x00 0x00 [0x00]
    PossibleErrs := some [] }

def NewCommandReceiveInvoice (lib : Lib) : Command :=
  { ApduCmd := apdu.NewCommand lib.ClaGp InsReceiveInvoice 0x00 0x00 [0x00]
    PossibleErrs := some [] }

def NewCommandGetFriendlyName (lib : Lib) : Command :=
  { ApduCmd := apdu.NewCommand lib.ClaGp InsSetFriendlyName 0x00 0x00 [0x00]
    PossibleErrs := some [
      (SW_DATA_INVALID, errors.New "friendly name not set")] }

def NewCommandSetFriendlyName (lib : Lib) (name : GoString) : Command :=
  { ApduCmd := apdu.NewCommand lib.ClaGp InsGetFriendlyName 0x00 0x00 name.toBytes
    PossibleErrs := some [] }

/-- The literal leaves `PossibleErrs` out, so the field is the nil map; the
payload argument is the nil slice. -/
def NewCommandGetAvailableMemory (lib : Lib) : Command :=
  { ApduCmd := apdu.NewCommand lib.ClaGp InsGetAvailableMemory 0x00 0x00 []
    PossibleErrs := none }

def NewCommandMineNativePhonon (lib : Lib) (difficulty : Nat) : Command :=
  { ApduCmd := apdu.NewCommand lib.ClaGp InsMineNativePhonon difficulty 0x00 []
    PossibleErrs := some [
      (SW_MINING_FAILED, backend.ErrMiningFailed),
      (SW_CONDITIONS_NOT_SATISFIED, backend.ErrPINNotEntered)] }

/-- One call of a catalog constructor: the constructor together with its
arguments. There is one case per `NewCommand*` function of apdu.go. -/
inductive CatalogCall (lib : Lib) where
  | IdentifyCard (nonce : List Nat)
  | VerifyPIN (pin : GoString)
  | ChangePIN (pin : GoString)
  | CreatePhonon (curveType : Nat)
  | SetDescriptor (data : List Nat)
  | ListPhonons (p1 : Nat) (p2 : Nat) (data : List Nat)
  | GetPhononPubKey (data : List Nat)
  | DestroyPhonon (data : List Nat)
  | SendPhonons (data : List Nat) (p2Length : Nat) (extendedRequest : Bool)
  | ReceivePhonons (phononTransferPacket : List Nat)
  | SetReceiveList (data : List Nat)
  | TransactionAck (data : List Nat)
  | InitCardPairing (data : List Nat)
  | CardPair (data : List Nat)
  | CardPair2 (data : List Nat)
  | FinalizeCardPair (data : List Nat)
  | LoadCertAuthority (data : List Nat)
  | InstallCert (data : List Nat)
  | SelectPhononApplet
  | PairStep1 (salt : List Nat) (pairingPubKey : lib.PublicKey)
  | PairStep2 (cryptogram : List Nat)
  | Unpair (index : Nat)
  | OpenSecureChannel (index : Nat) (publicKey : List Nat)
  | MutualAuthenticate (data : List Nat)
  | Init (data : List Nat)
  | GenerateInvoice
  | ReceiveInvoice
  | GetFriendlyName
  | SetFriendlyName (name : GoString)
  | GetAvailableMemory
  | MineNativePhonon (difficulty : Nat)

/-- The command descriptor a catalog call returns. -/
def CatalogCall.build (lib : Lib) : CatalogCall lib → Command
  | .IdentifyCard nonce => NewCommandIdentifyCard lib nonce
  | .VerifyPIN pin => NewCommandVerifyPIN lib pin
  | .ChangePIN pin => NewCommandChangePIN lib pin
  | .CreatePhonon curveType => NewCommandCreatePhonon lib curveType
  | .SetDescriptor data => NewCommandSetDescriptor lib data
  | .ListPhonons p1 p2 data => NewCommandListPhonons lib p1 p2 data
  | .GetPhononPubKey data => NewCommandGetPhononPubKey lib data
  | .DestroyPhonon data => NewCommandDestroyPhonon lib data
  | .SendPhonons data p2Length extendedRequest =>
      NewCommandSendPhonons lib data p2Length extendedRequest
  | .ReceivePhonons phononTransferPacket => NewCommandReceivePhonons lib phononTransferPacket
  | .SetReceiveList data => NewCommandSetReceiveList lib data
  | .TransactionAck data => NewCommandTransactionAck lib data
  | .InitCardPairing data => NewCommandInitCardPairing lib data
  | .CardPair data => NewCommandCardPair lib data
  | .CardPair2 data => NewCommandCardPair2 lib data
  | .FinalizeCardPair data => NewCommandFinalizeCardPair lib data
  | .LoadCertAuthority data => NewCommandLoadCertAuthority lib data
  | .InstallCert data => NewCommandInstallCert lib data
  | .SelectPhononApplet => NewCommandSelectPhononApplet lib
  | .PairStep1 salt pairingPubKey => NewCommandPairStep1 lib salt pairingPubKey
  | .PairStep2 cryptogram => NewCommandPairStep2 lib cryptogram
  | .Unpair index => NewCommandUnpair lib index
  | .OpenSecureChannel index publicKey => NewCommandOpenSecureChannel lib index publicKey
  | .MutualAuthenticate data => NewCommandMutualAuthenticate lib data
  | .Init data => NewCommandInit lib data
  | .GenerateInvoice => NewCommandGenerateInvoice lib
  | .ReceiveInvoice => NewCommandReceiveInvoice lib
  | .GetFriendlyName => NewCommandGetFriendlyName lib
  | .SetFriendlyName name => NewCommandSetFriendlyName lib name
  | .GetAvailableMemory => NewCommandGetAvailableMemory lib
  | .MineNativePhonon difficulty => NewCommandMineNativePhonon lib difficulty

/-- A library instance for evaluating the catalog on concrete inputs: every
wrapped builder is the plain `apdu.NewCommand` wrapper around its byte data,
and a public key is a byte string. -/
def sampleLib : Lib :=
  { PublicKey := List Nat
    ClaGp := 0x80
    ClaISO7816 := 0x00
    NewCommandSelect := fun aid => apdu.NewCommand 0x00 0xA4 0x04 0x00 aid
    NewAPDUPairStep1 := fun salt key => apdu.NewCommand 0x80 0x12 0x00 0x00 (salt ++ key)
    NewAPDUPairStep2 := fun cryptogram => apdu.NewCommand 0x80 0x12 0x01 0x00 cryptogram
    NewCommandUnpair := fun index => apdu.NewCommand 0x80 0x13 index 0x00 []
    NewCommandOpenSecureChannel := fun index key => apdu.NewCommand 0x80 0x10 index 0x00 key
    NewCommandMutuallyAuthenticate := fun data => apdu.NewCommand 0x80 0x11 0x00 0x00 data
    NewCommandInit := fun data => apdu.NewCommand 0x80 0xFE 0x00 0x00 data }

/-- A command resolves through the default only: its error table has no
entries, status word 0x9000 resolves to nil and every other status word to
`backend.ErrDefault`. -/
def ResolvesByDefaultOnly (cmd : Command) : Prop :=
  cmd.PossibleErrs.keys = []
  ∧ ∀ res : apdu.Response,
      cmd.HumanReadableErr res = if res.Sw = 0x9000 then nil else backend.ErrDefault

/-! ## The pairing and secure-channel handshake (spec, section 4.3) -/

/-- Modelled from the spec: the reason carried by the terminal failure state
`Aborted(reason)` of the handshake state machine. The state machine is not
among the sources at hand. By the spec the state is reached "on a resolved
error or a local precondition failure"; the second kind covers a step attempted
out of order. -/
inductive AbortReason where
  | ResolvedError (e : GoError)
  | OutOfOrder
deriving DecidableEq, Repr

/-- Modelled from the spec: the current phase of a PairingSession, the states of
the handshake state machine in the order the spec lists them, with the
terminal failure state `Aborted(reason)`. The state machine is not among the
sources at hand. -/
inductive Phase where
  | Idle
  | AppletSelected
  | CAInstalled
  | Pairing1Sent
  | Pairing2Sent
  | PairingFinalized
  | Paired
  | SecureChannelOpening
  | MutuallyAuthenticating
  | SecureChannelEstablished
  | Aborted (reason : AbortReason)
deriving DecidableEq, Repr

/-- Modelled from the spec: the steps of the handshake that send a command to the
card, transitions 1 to 7 of the state machine, which is not among the sources
at hand: select the applet (1), the optional certificate-authority install or
card-certificate load (2), the two pairing messages (3, 4), the exchange of
signatures that finalizes the pairing (5), the opening of the secure channel
(6) and the mutual authentication (7). -/
inductive Step where
  | SelectApplet
  | InstallCertificate
  | Pairing1
  | Pairing2
  | FinalizePairing
  | OpenSecureChannel
  | MutuallyAuthenticate
deriving DecidableEq, Repr

/-- Modelled from the spec: the phases in which a step is in order, read off the
spec's chain of states `Idle → AppletSelected → CAInstalled(optional) →
Pairing1Sent → Pairing2Sent → PairingFinalized → Paired → SecureChannelOpening →
MutuallyAuthenticating → SecureChannelEstablished`. The certificate step is
optional, and its two commands are independent, so it and the first pairing
message are in order both right after the applet selection and after a
certificate step. -/
def Step.sources : Step → List Phase
  | .SelectApplet => [Phase.Idle]
  | .InstallCertificate => [Phase.AppletSelected, Phase.CAInstalled]
  | .Pairing1 => [Phase.AppletSelected, Phase.CAInstalled]
  | .Pairing2 => [Phase.Pairing1Sent]
  | .FinalizePairing => [Phase.Pairing2Sent]
  | .OpenSecureChannel => [Phase.Paired]
  | .MutuallyAuthenticate => [Phase.SecureChannelOpening]

/-- Modelled from the spec: the phase a session enters when the command of a step
has been handed over for transmission. -/
def Step.target : Step → Phase
  | .SelectApplet => Phase.AppletSelected
  | .InstallCertificate => Phase.CAInstalled
  | .Pairing1 => Phase.Pairing1Sent
  | .Pairing2 => Phase.Pairing2Sent
  | .FinalizePairing => Phase.PairingFinalized
  | .OpenSecureChannel => Phase.SecureChannelOpening
  | .MutuallyAuthenticate => Phase.MutuallyAuthenticating

/-- Modelled from the spec: what invoking a step on a session yields. Either the
command descriptor is handed over for transmission and the session enters the
next phase, or the step is rejected locally with the handshake sequencing
error and nothing is sent. -/
inductive StepOutcome where
  | send (cmd : Command) (next : Phase)
  | rejected
deriving DecidableEq, Repr

/-- The command descriptor handed over for transmission, if any. -/
def StepOutcome.sent : StepOutcome → Option Command
  | .send cmd _ => some cmd
  | .rejected => none

/-- Whether the outcome is the handshake sequencing error. -/
def StepOutcome.isSequencingError : StepOutcome → Bool
  | .send _ _ => false
  | .rejected => true

/-- Modelled from the spec: the phase of the session after the outcome. A local
precondition failure leads to the terminal state `Aborted`. -/
def StepOutcome.phase : StepOutcome → Phase
  | .send _ next => next
  | .rejected => Phase.Aborted AbortReason.OutOfOrder

/-- Modelled from the spec: invoking a handshake step on a session that is in
`phase`, with the command descriptor `cmd` that the catalog built for the step.
The state machine is not among the sources at hand. By the spec's ordering
invariant "the state machine rejects (fails fast, does not send) any command
attempted out of order": a step in order sends its command and enters its
phase, any other step is rejected. -/
def invokeStep (phase : Phase) (step : Step) (cmd : Command) : StepOutcome :=
  if phase ∈ step.sources then StepOutcome.send cmd step.target else StepOutcome.rejected

/-- Modelled from the spec: the phase after the card has answered the command of
the current phase with success. Transition 5 is written `PairingFinalized →
Paired` ("on success, a long-term pairing secret is derived") and transition 8
enters `SecureChannelEstablished` once the card has confirmed the mutual
authentication; the other phases are left by the next step only. -/
def Phase.confirmed : Phase → Phase
  | .PairingFinalized => Phase.Paired
  | .MutuallyAuthenticating => Phase.SecureChannelEstablished
  | p => p

/-- Modelled from the spec: the phase of a session that started in `phase` after
the given steps were invoked in turn, each with its command descriptor, every
command sent being answered with success. A rejected step leaves the session
in `Aborted`, where no step is in order. -/
def runSteps (phase : Phase) : List (Step × Command) → Phase
  | [] => phase
  | (step, cmd) :: rest => runSteps (invokeStep phase step cmd).phase.confirmed rest

/-- Whether a phase lies at or after the opening of the secure channel; a
session for which this is false has no secure channel opened yet. -/
def Phase.channelOpened : Phase → Bool
  | .SecureChannelOpening => true
  | .MutuallyAuthenticating => true
  | .SecureChannelEstablished => true
  | _ => false

/-- Whether a catalog call is a call of `NewCommandReceivePhonons` or of
`NewCommandMutualAuthenticate`. -/
def CatalogCall.isReceivePhononsOrMutualAuthenticate {lib : Lib} : CatalogCall lib → Bool
  | .ReceivePhonons _ => true
  | .MutualAuthenticate _ => true
  | _ => false

/-! ## Facts about map indexing -/

theorem lookupEntries_found_iff (es : List (Int × error)) (key : Int) :
    (lookupEntries es key).2 = true ↔ key ∈ es.map Prod.fst := by
  induction es with
  | nil => simp [lookupEntries]
  | cons kv rest ih =>
    obtain ⟨k, v⟩ := kv
    by_cases hk : k = key
    · simp [lookupEntries, hk]
    · have hk2 : ¬ key = k := fun h => hk h.symm
      simp [lookupEntries, hk, hk2, ih]

theorem index_found_iff (m : CmdErrTable) (key : Int) :
    (m.index key).2 = true ↔ key ∈ m.keys := by
  cases m with
  | none => simp [CmdErrTable.index, CmdErrTable.keys]
  | some es => simpa [CmdErrTable.index, CmdErrTable.keys] using lookupEntries_found_iff es key

theorem index_absent (m : CmdErrTable) (key : Int) (h : key ∉ m.keys) :
    m.index key = (nil, false) := by
  cases m with
  | none => rfl
  | some es =>
    simp only [CmdErrTable.index, CmdErrTable.keys] at *
    induction es with
    | nil => rfl
    | cons kv rest ih =>
      obtain ⟨k, v⟩ := kv
      simp only [List.map_cons, List.mem_cons, not_or] at h
      have hk : ¬ k = key := fun e => h.1 e.symm
      simp only [lookupEntries, hk, if_false]
      exact ih h.2

/-- An entry found by indexing is what the resolver returns. -/
theorem resolve_of_index_found (cmd : Command) (res : apdu.Response) (e : error)
    (h : cmd.PossibleErrs.index (res.Sw : Int) = (e, true)) :
    cmd.HumanReadableErr res = e := by
  unfold Command.HumanReadableErr
  rw [h]
  rfl

/-- A status word that is no key and is not 0x9000 resolves to the default error. -/
theorem resolve_of_key_absent (cmd : Command) (res : apdu.Response)
    (hkey : (res.Sw : Int) ∉ cmd.PossibleErrs.keys) (hsw : res.Sw ≠ 0x9000) :
    cmd.HumanReadableErr res = backend.ErrDefault := by
  have hne : (res.Sw : Int) ≠ SW_NO_ERROR := by
    intro h
    apply hsw
    have : (res.Sw : Int) = 0x9000 := h
    omega
  simp only [Command.HumanReadableErr, index_absent _ _ hkey]
  simp [hne]

/-! ## The resolver on arbitrary commands -/

/-- Claim C1. Table round-trip: whenever indexing the error table of a command
with the status word of the response finds an entry bound to `e`,
`HumanReadableErr` returns exactly `e`. There is no side condition on the
status word, so the table entry also wins when the status word is 0x9000. -/
theorem HumanReadableErr_table_entry (cmd : Command) (res : apdu.Response) (e : error)
    (h : cmd.PossibleErrs.index (res.Sw : Int) = (e, true)) :
    cmd.HumanReadableErr res = e := by
  simp only [Command.HumanReadableErr, h]
  rfl

/-- At a table that binds 0x9000 itself the bound error is returned, not success. -/
theorem HumanReadableErr_table_entry_witness :
    (Command.mk (apdu.NewCommand 0x80 0x20 0 0 []) (some [(0x9000, errors.New "redefined")])
        ).PossibleErrs.index ((apdu.Response.mk [] 0x9000).Sw : Int)
      = (errors.New "redefined", true)
    ∧ (Command.mk (apdu.NewCommand 0x80 0x20 0 0 []) (some [(0x9000, errors.New "redefined")])
        ).HumanReadableErr (apdu.Response.mk [] 0x9000) = errors.New "redefined" :=
  ⟨by decide, HumanReadableErr_table_entry _ _ _ (by decide)⟩

/-- Claim C2. Default fallback: for every command (its table may be empty or the
nil map) and every status word that is not a key of the table and differs from
0x9000, `HumanReadableErr` returns `backend.ErrDefault`, which is not nil. The
resolver is a total function, so it has no failing branch. The statement holds
for every natural number as status word, in particular for every 16-bit one. -/
theorem HumanReadableErr_default (cmd : Command) (res : apdu.Response)
    (hkey : (res.Sw : Int) ∉ cmd.PossibleErrs.keys) (hsw : res.Sw ≠ 0x9000) :
    cmd.HumanReadableErr res = backend.ErrDefault ∧ cmd.HumanReadableErr res ≠ nil := by
  have hne : (res.Sw : Int) ≠ SW_NO_ERROR := by
    intro h
    apply hsw
    have : (res.Sw : Int) = 0x9000 := h
    omega
  have hres : cmd.HumanReadableErr res = backend.ErrDefault := by
    simp only [Command.HumanReadableErr, index_absent _ _ hkey]
    simp [hne]
  refine ⟨hres, ?_⟩
  rw [hres]
  simp [backend.ErrDefault]

/-- The nil table of `NewCommandGetAvailableMemory` and status word 0x6985. -/
theorem HumanReadableErr_default_witness :
    (((apdu.Response.mk [] 0x6985).Sw : Int) ∉ (NewCommandGetAvailableMemory sampleLib).PossibleErrs.keys
      ∧ (apdu.Response.mk [] 0x6985).Sw ≠ 0x9000)
    ∧ ((NewCommandGetAvailableMemory sampleLib).HumanReadableErr (apdu.Response.mk [] 0x6985)
          = backend.ErrDefault
        ∧ (NewCommandGetAvailableMemory sampleLib).HumanReadableErr (apdu.Response.mk [] 0x6985)
          ≠ nil) :=
  ⟨⟨by decide, by decide⟩, HumanReadableErr_default _ _ (by decide) (by decide)⟩

/-- A table without the key 0x9000 resolves the status word 0x9000 to nil. -/
theorem HumanReadableErr_success (cmd : Command) (data : List Nat)
    (hkey : SW_NO_ERROR ∉ cmd.PossibleErrs.keys) :
    cmd.HumanReadableErr (apdu.Response.mk data 0x9000) = nil := by
  have h : cmd.PossibleErrs.index ((0x9000 : Nat) : Int) = (nil, false) :=
    index_absent _ _ (by simpa using hkey)
  simp only [Command.HumanReadableErr, h]
  simp

/-! ## Invariants of the catalog tables -/

/-- Claim C3. Success is never redefined: for every catalog constructor and all
of its arguments, 0x9000 is not a key of the error table, and resolving a
response with status word 0x9000 returns nil (success). -/
theorem catalog_success_not_redefined (lib : Lib) (c : CatalogCall lib) (data : List Nat) :
    SW_NO_ERROR ∉ (c.build lib).PossibleErrs.keys
    ∧ (c.build lib).HumanReadableErr (apdu.Response.mk data 0x9000) = nil := by
  have hkey : SW_NO_ERROR ∉ (c.build lib).PossibleErrs.keys := by
    cases c <;> simp only [CatalogCall.build, NewCommandIdentifyCard,
      NewCommandVerifyPIN, NewCommandChangePIN, NewCommandCreatePhonon, NewCommandSetDescriptor,
      NewCommandListPhonons, NewCommandGetPhononPubKey, NewCommandDestroyPhonon,
      NewCommandSendPhonons, NewCommandReceivePhonons, NewCommandSetReceiveList,
      NewCommandTransactionAck, NewCommandInitCardPairing, NewCommandCardPair,
      NewCommandCardPair2, NewCommandFinalizeCardPair, NewCommandLoadCertAuthority,
      NewCommandInstallCert, NewCommandSelectPhononApplet, NewCommandPairStep1,
      NewCommandPairStep2, NewCommandUnpair, NewCommandOpenSecureChannel,
      NewCommandMutualAuthenticate, NewCommandInit, NewCommandGenerateInvoice,
      NewCommandReceiveInvoice, NewCommandGetFriendlyName, NewCommandSetFriendlyName,
      NewCommandGetAvailableMemory, NewCommandMineNativePhonon] <;> decide
  exact ⟨hkey, HumanReadableErr_success _ data hkey⟩

/-- Claim C4. No offset collision: for every catalog constructor and all of its
arguments, the keys written in the error table, evaluated after the base plus
offset arithmetic, are pairwise distinct. -/
theorem catalog_keys_pairwise_distinct (lib : Lib) (c : CatalogCall lib) :
    (c.build lib).PossibleErrs.keys.Nodup := by
  cases c <;> simp only [CatalogCall.build, NewCommandIdentifyCard,
    NewCommandVerifyPIN, NewCommandChangePIN, NewCommandCreatePhonon, NewCommandSetDescriptor,
    NewCommandListPhonons, NewCommandGetPhononPubKey, NewCommandDestroyPhonon,
    NewCommandSendPhonons, NewCommandReceivePhonons, NewCommandSetReceiveList,
    NewCommandTransactionAck, NewCommandInitCardPairing, NewCommandCardPair,
    NewCommandCardPair2, NewCommandFinalizeCardPair, NewCommandLoadCertAuthority,
    NewCommandInstallCert, NewCommandSelectPhononApplet, NewCommandPairStep1,
    NewCommandPairStep2, NewCommandUnpair, NewCommandOpenSecureChannel,
    NewCommandMutualAuthenticate, NewCommandInit, NewCommandGenerateInvoice,
    NewCommandReceiveInvoice, NewCommandGetFriendlyName, NewCommandSetFriendlyName,
    NewCommandGetAvailableMemory, NewCommandMineNativePhonon] <;> decide

/-! ## Encoding of the request -/

/-- Claim C5. Payload pass-through: each data-carrying constructor built on
`apdu.NewCommand` stores the caller's byte sequence unchanged as the payload of
the APDU (equal as lists: same length, same bytes, same order); the three
constructors taking a string store the bytes of the string. -/
theorem catalog_payload_pass_through (lib : Lib) (data : List Nat) (str : GoString)
    (p1 p2 p2Length : Nat) (extendedRequest : Bool) :
    (NewCommandIdentifyCard lib data).ApduCmd.Data = data
    ∧ (NewCommandSetDescriptor lib data).ApduCmd.Data = data
    ∧ (NewCommandListPhonons lib p1 p2 data).ApduCmd.Data = data
    ∧ (NewCommandGetPhononPubKey lib data).ApduCmd.Data = data
    ∧ (NewCommandDestroyPhonon lib data).ApduCmd.Data = data
    ∧ (NewCommandSendPhonons lib data p2Length extendedRequest).ApduCmd.Data = data
    ∧ (NewCommandReceivePhonons lib data).ApduCmd.Data = data
    ∧ (NewCommandSetReceiveList lib data).ApduCmd.Data = data
    ∧ (NewCommandTransactionAck lib data).ApduCmd.Data = data
    ∧ (NewCommandInitCardPairing lib data).ApduCmd.Data = data
    ∧ (NewCommandCardPair lib data).ApduCmd.Data = data
    ∧ (NewCommandCardPair2 lib data).ApduCmd.Data = data
    ∧ (NewCommandFinalizeCardPair lib data).ApduCmd.Data = data
    ∧ (NewCommandLoadCertAuthority lib data).ApduCmd.Data = data
    ∧ (NewCommandInstallCert lib data).ApduCmd.Data = data
    ∧ (NewCommandVerifyPIN lib str).ApduCmd.Data = str.toBytes
    ∧ (NewCommandChangePIN lib str).ApduCmd.Data = str.toBytes
    ∧ (NewCommandSetFriendlyName lib str).ApduCmd.Data = str.toBytes := by
  refine ⟨rfl, rfl, rfl, rfl, rfl, rfl, rfl, rfl, rfl, rfl, rfl, rfl, rfl, rfl, rfl, rfl, rfl, rfl⟩

/-- Claim C6. Instruction codes: for all arguments, the descriptor built by each
of the twenty-two constructors named in the claim carries the instruction byte
that the spec fixes for its operation. -/
theorem catalog_instruction_codes (lib : Lib) (data : List Nat) (pin : GoString)
    (curveType p1 p2 p2Length difficulty : Nat) (extendedRequest : Bool) :
    (NewCommandIdentifyCard lib data).ApduCmd.Ins = 0x14
    ∧ (NewCommandInstallCert lib data).ApduCmd.Ins = 0x15
    ∧ (NewCommandVerifyPIN lib pin).ApduCmd.Ins = 0x20
    ∧ (NewCommandChangePIN lib pin).ApduCmd.Ins = 0x21
    ∧ (NewCommandCreatePhonon lib curveType).ApduCmd.Ins = 0x30
    ∧ (NewCommandSetDescriptor lib data).ApduCmd.Ins = 0x31
    ∧ (NewCommandListPhonons lib p1 p2 data).ApduCmd.Ins = 0x32
    ∧ (NewCommandGetPhononPubKey lib data).ApduCmd.Ins = 0x33
    ∧ (NewCommandDestroyPhonon lib data).ApduCmd.Ins = 0x34
    ∧ (NewCommandSendPhonons lib data p2Length extendedRequest).ApduCmd.Ins = 0x35
    ∧ (NewCommandReceivePhonons lib data).ApduCmd.Ins = 0x36
    ∧ (NewCommandSetReceiveList lib data).ApduCmd.Ins = 0x37
    ∧ (NewCommandTransactionAck lib data).ApduCmd.Ins = 0x38
    ∧ (NewCommandMineNativePhonon lib difficulty).ApduCmd.Ins = 0x41
    ∧ (NewCommandInitCardPairing lib data).ApduCmd.Ins = 0x50
    ∧ (NewCommandCardPair lib data).ApduCmd.Ins = 0x51
    ∧ (NewCommandCardPair2 lib data).ApduCmd.Ins = 0x52
    ∧ (NewCommandFinalizeCardPair lib data).ApduCmd.Ins = 0x53
    ∧ (NewCommandGenerateInvoice lib).ApduCmd.Ins = 0x54
    ∧ (NewCommandReceiveInvoice lib).ApduCmd.Ins = 0x55
    ∧ (NewCommandLoadCertAuthority lib data).ApduCmd.Ins = 0x58
    ∧ (NewCommandGetAvailableMemory lib).ApduCmd.Ins = 0x99 := by
  refine ⟨rfl, rfl, rfl, rfl, rfl, rfl, rfl, rfl, rfl, rfl, rfl, rfl, rfl, rfl, rfl, rfl, rfl,
    rfl, rfl, rfl, rfl, rfl⟩

/-- Claim C7 fails on the code. The two friendly-name constructors carry each
other's instruction byte: `NewCommandGetFriendlyName` is built with
`InsSetFriendlyName` = 0x57 and `NewCommandSetFriendlyName` with
`InsGetFriendlyName` = 0x56, so neither carries the byte the claim states. -/
theorem friendly_name_instruction_codes_swapped (lib : Lib) (name : GoString) :
    (NewCommandGetFriendlyName lib).ApduCmd.Ins = InsSetFriendlyName
    ∧ (NewCommandGetFriendlyName lib).ApduCmd.Ins = 0x57
    ∧ (NewCommandGetFriendlyName lib).ApduCmd.Ins ≠ 0x56
    ∧ (NewCommandSetFriendlyName lib name).ApduCmd.Ins = InsGetFriendlyName
    ∧ (NewCommandSetFriendlyName lib name).ApduCmd.Ins = 0x56
    ∧ (NewCommandSetFriendlyName lib name).ApduCmd.Ins ≠ 0x57 := by
  refine ⟨rfl, rfl, ?_, rfl, rfl, ?_⟩
  · show (0x57 : Nat) ≠ 0x56
    decide
  · show (0x56 : Nat) ≠ 0x57
    decide

/-! ## Resolution of particular commands -/

/-- A command whose table has no keys resolves through the default only. -/
theorem resolvesByDefaultOnly_of_keys_nil (cmd : Command) (h : cmd.PossibleErrs.keys = []) :
    ResolvesByDefaultOnly cmd := by
  refine ⟨h, fun res => ?_⟩
  have hidx : cmd.PossibleErrs.index (res.Sw : Int) = (nil, false) :=
    index_absent _ _ (by simp [h])
  simp only [Command.HumanReadableErr, hidx]
  by_cases hsw : res.Sw = 0x9000
  · simp [hsw]
  · have hne : (res.Sw : Int) ≠ SW_NO_ERROR := by
      intro e
      apply hsw
      have : (res.Sw : Int) = 0x9000 := e
      omega
    simp [hsw, hne]

/-- Claim C8. Commands with no known errors: for all arguments, the tables of
`NewCommandSelectPhononApplet`, `NewCommandUnpair`, `NewCommandInit`,
`NewCommandGenerateInvoice`, `NewCommandReceiveInvoice`,
`NewCommandSetFriendlyName` and `NewCommandGetAvailableMemory` have no entries,
and every status word resolves to nil when it is 0x9000 and to
`backend.ErrDefault` otherwise. -/
theorem no_known_errors_resolve_by_default (lib : Lib) (index : Nat) (data : List Nat)
    (name : GoString) :
    ResolvesByDefaultOnly (NewCommandSelectPhononApplet lib)
    ∧ ResolvesByDefaultOnly (NewCommandUnpair lib index)
    ∧ ResolvesByDefaultOnly (NewCommandInit lib data)
    ∧ ResolvesByDefaultOnly (NewCommandGenerateInvoice lib)
    ∧ ResolvesByDefaultOnly (NewCommandReceiveInvoice lib)
    ∧ ResolvesByDefaultOnly (NewCommandSetFriendlyName lib name)
    ∧ ResolvesByDefaultOnly (NewCommandGetAvailableMemory lib) :=
  ⟨resolvesByDefaultOnly_of_keys_nil _ rfl, resolvesByDefaultOnly_of_keys_nil _ rfl,
   resolvesByDefaultOnly_of_keys_nil _ rfl, resolvesByDefaultOnly_of_keys_nil _ rfl,
   resolvesByDefaultOnly_of_keys_nil _ rfl, resolvesByDefaultOnly_of_keys_nil _ rfl,
   resolvesByDefaultOnly_of_keys_nil _ rfl⟩

/-- Claim C9. Create-phonon resolution: for every curve type, the descriptor of
`NewCommandCreatePhonon` resolves status 0x6985 to `backend.ErrPINNotEntered`,
status 0x6A84 to `backend.ErrPhononTableFull`, status 0x9000 to nil, and every
other status word to `backend.ErrDefault`. -/
theorem createPhonon_resolution (lib : Lib) (curveType : Nat) (data : List Nat) :
    (NewCommandCreatePhonon lib curveType).HumanReadableErr (apdu.Response.mk data 0x6985)
      = backend.ErrPINNotEntered
    ∧ (NewCommandCreatePhonon lib curveType).HumanReadableErr (apdu.Response.mk data 0x6A84)
      = backend.ErrPhononTableFull
    ∧ (NewCommandCreatePhonon lib curveType).HumanReadableErr (apdu.Response.mk data 0x9000)
      = nil
    ∧ ∀ sw : Nat, sw ≠ 0x6985 → sw ≠ 0x6A84 → sw ≠ 0x9000 →
        (NewCommandCreatePhonon lib curveType).HumanReadableErr (apdu.Response.mk data sw)
          = backend.ErrDefault := by
  refine ⟨?_, ?_, ?_, ?_⟩
  · exact resolve_of_index_found _ _ _ (by simp only [NewCommandCreatePhonon]; decide)
  · exact resolve_of_index_found _ _ _ (by simp only [NewCommandCreatePhonon]; decide)
  · exact HumanReadableErr_success _ _ (by simp only [NewCommandCreatePhonon]; decide)
  · intro sw h1 h2 h3
    refine resolve_of_key_absent _ _ ?_ h3
    simp only [NewCommandCreatePhonon, CmdErrTable.keys, SW_FILE_FULL,
      SW_CONDITIONS_NOT_SATISFIED, List.map, List.mem_cons,
      List.mem_nil_iff, or_false, not_or]
    constructor <;> omega

/-- Status word 0x6A80 is none of the three listed ones and resolves to the default. -/
theorem createPhonon_resolution_witness :
    (NewCommandCreatePhonon sampleLib 1).HumanReadableErr (apdu.Response.mk [] 0x6A80)
      = backend.ErrDefault :=
  (createPhonon_resolution sampleLib 1 []).2.2.2 0x6A80 (by decide) (by decide) (by decide)

/-- Claim C10. Verify-PIN resolution: for every PIN, the descriptor of
`NewCommandVerifyPIN` resolves status word 0x63C to the error "pin verification
failed" and status word 0x9000 to nil, and for every response the result is the
same whatever the PIN is. -/
theorem verifyPIN_resolution (lib : Lib) (pin : GoString) (data : List Nat) :
    (NewCommandVerifyPIN lib pin).HumanReadableErr (apdu.Response.mk data 0x63C)
      = errors.New "pin verification failed"
    ∧ (NewCommandVerifyPIN lib pin).HumanReadableErr (apdu.Response.mk data 0x9000) = nil
    ∧ ∀ (other : GoString) (res : apdu.Response),
        (NewCommandVerifyPIN lib pin).HumanReadableErr res
          = (NewCommandVerifyPIN lib other).HumanReadableErr res := by
  refine ⟨?_, ?_, ?_⟩
  · exact resolve_of_index_found _ _ _ (by simp only [NewCommandVerifyPIN]; decide)
  · exact HumanReadableErr_success _ _ (by simp only [NewCommandVerifyPIN]; decide)
  · intro other res
    rfl

/-- Claim C11. Certificate-locked: for every data, `NewCommandLoadCertAuthority`
resolves status 0x6A81 and `NewCommandInstallCert` resolves status 0x6986 to
`backend.ErrCertLocked`; in each of the two tables that status word is the only
key bound to `ErrCertLocked`, and it is the only status word resolved to it;
`ErrCertLocked` differs from `backend.ErrDefault` and from nil (success). -/
theorem certLocked_resolution (lib : Lib) (data rdata : List Nat) :
    (NewCommandLoadCertAuthority lib data).HumanReadableErr (apdu.Response.mk rdata 0x6A81)
      = backend.ErrCertLocked
    ∧ (NewCommandInstallCert lib data).HumanReadableErr (apdu.Response.mk rdata 0x6986)
      = backend.ErrCertLocked
    ∧ (∀ key : Int, (NewCommandLoadCertAuthority lib data).PossibleErrs.index key
          = (backend.ErrCertLocked, true) ↔ key = 0x6A81)
    ∧ (∀ key : Int, (NewCommandInstallCert lib data).PossibleErrs.index key
          = (backend.ErrCertLocked, true) ↔ key = 0x6986)
    ∧ (∀ sw : Nat, (NewCommandLoadCertAuthority lib data).HumanReadableErr
          (apdu.Response.mk rdata sw) = backend.ErrCertLocked ↔ sw = 0x6A81)
    ∧ (∀ sw : Nat, (NewCommandInstallCert lib data).HumanReadableErr
          (apdu.Response.mk rdata sw) = backend.ErrCertLocked ↔ sw = 0x6986)
    ∧ backend.ErrCertLocked ≠ backend.ErrDefault
    ∧ backend.ErrCertLocked ≠ nil := by
  have hLoad : ∀ key : Int, (NewCommandLoadCertAuthority lib data).PossibleErrs.index key
      = (backend.ErrCertLocked, true) ↔ key = 0x6A81 := by
    intro key
    simp only [NewCommandLoadCertAuthority, CmdErrTable.index, lookupEntries]
    constructor
    · intro h
      split_ifs at h with h1 h2
      · exact h1.symm
      · exact absurd (congrArg Prod.fst h) (by decide)
      · exact absurd (congrArg Prod.snd h) (by decide)
    · intro h
      subst h
      decide
  have hInst : ∀ key : Int, (NewCommandInstallCert lib data).PossibleErrs.index key
      = (backend.ErrCertLocked, true) ↔ key = 0x6986 := by
    intro key
    simp only [NewCommandInstallCert, CmdErrTable.index, lookupEntries]
    constructor
    · intro h
      split_ifs at h with h1 h2
      · exact h1.symm
      · exact absurd (congrArg Prod.fst h) (by decide)
      · exact absurd (congrArg Prod.snd h) (by decide)
    · intro h
      subst h
      decide
  have hne : backend.ErrCertLocked ≠ backend.ErrDefault := by decide
  have hnil : backend.ErrCertLocked ≠ nil := by decide
  refine ⟨resolve_of_index_found _ _ _ ((hLoad _).2 rfl),
    resolve_of_index_found _ _ _ ((hInst _).2 rfl), hLoad, hInst, ?_, ?_, hne, hnil⟩
  · intro sw
    constructor
    · intro h
      by_cases hk : ((apdu.Response.mk rdata sw).Sw : Int)
          ∈ (NewCommandLoadCertAuthority lib data).PossibleErrs.keys
      · simp only [NewCommandLoadCertAuthority, CmdErrTable.keys, SW_FUNC_NOT_SUPPORTED,
          SW_WRONG_DATA, List.map, List.mem_cons, List.mem_nil_iff, or_false] at hk
        rcases hk with hk | hk
        · omega
        · have hidx : (NewCommandLoadCertAuthority lib data).PossibleErrs.index
              ((apdu.Response.mk rdata sw).Sw : Int) = (backend.ErrInvalidKeyLength, true) := by
            rw [hk]
            simp only [NewCommandLoadCertAuthority]
            decide
          rw [resolve_of_index_found _ _ _ hidx] at h
          exact absurd h (by decide)
      · by_cases hs : sw = 0x9000
        · subst hs
          rw [HumanReadableErr_success _ _ (by simp only [NewCommandLoadCertAuthority]; decide)] at h
          exact absurd h.symm hnil
        · rw [resolve_of_key_absent _ _ hk hs] at h
          exact absurd h.symm hne
    · intro h
      subst h
      exact resolve_of_index_found _ _ _ ((hLoad _).2 rfl)
  · intro sw
    constructor
    · intro h
      by_cases hk : ((apdu.Response.mk rdata sw).Sw : Int)
          ∈ (NewCommandInstallCert lib data).PossibleErrs.keys
      · simp only [NewCommandInstallCert, CmdErrTable.keys, SW_COMMAND_NOT_ALLOWED,
          SW_DATA_INVALID, List.map, List.mem_cons, List.mem_nil_iff, or_false] at hk
        rcases hk with hk | hk
        · omega
        · have hidx : (NewCommandInstallCert lib data).PossibleErrs.index
              ((apdu.Response.mk rdata sw).Sw : Int)
                = (errors.New "unable to save certificate", true) := by
            rw [hk]
            simp only [NewCommandInstallCert]
            decide
          rw [resolve_of_index_found _ _ _ hidx] at h
          exact absurd h (by decide)
      · by_cases hs : sw = 0x9000
        · subst hs
          rw [HumanReadableErr_success _ _ (by simp only [NewCommandInstallCert]; decide)] at h
          exact absurd h.symm hnil
        · rw [resolve_of_key_absent _ _ hk hs] at h
          exact absurd h.symm hne
    · intro h
      subst h
      exact resolve_of_index_found _ _ _ ((hInst _).2 rfl)

/-- Claim C12. Re-authentication: for every data, the descriptor of
`NewCommandMutualAuthenticate` resolves the status word 0x6881 to the error
"already mutually authenticated", which is neither nil nor
`backend.ErrDefault`, and the three keys 0x6985, 0x6881 and 0x6982 of its table
resolve to three pairwise different errors. -/
theorem mutualAuthenticate_resolution (lib : Lib) (data rdata : List Nat) :
    (NewCommandMutualAuthenticate lib data).HumanReadableErr (apdu.Response.mk rdata 0x6881)
      = errors.New "already mutually authenticated"
    ∧ errors.New "already mutually authenticated" ≠ nil
    ∧ errors.New "already mutually authenticated" ≠ backend.ErrDefault
    ∧ (NewCommandMutualAuthenticate lib data).PossibleErrs.keys = [0x6985, 0x6881, 0x6982]
    ∧ (NewCommandMutualAuthenticate lib data).HumanReadableErr (apdu.Response.mk rdata 0x6985)
      ≠ (NewCommandMutualAuthenticate lib data).HumanReadableErr (apdu.Response.mk rdata 0x6881)
    ∧ (NewCommandMutualAuthenticate lib data).HumanReadableErr (apdu.Response.mk rdata 0x6985)
      ≠ (NewCommandMutualAuthenticate lib data).HumanReadableErr (apdu.Response.mk rdata 0x6982)
    ∧ (NewCommandMutualAuthenticate lib data).HumanReadableErr (apdu.Response.mk rdata 0x6881)
      ≠ (NewCommandMutualAuthenticate lib data).HumanReadableErr (apdu.Response.mk rdata 0x6982) := by
  have h85 : (NewCommandMutualAuthenticate lib data).HumanReadableErr
      (apdu.Response.mk rdata 0x6985) = errors.New "authentication key not initialized" :=
    resolve_of_index_found _ _ _ (by simp only [NewCommandMutualAuthenticate]; decide)
  have h81 : (NewCommandMutualAuthenticate lib data).HumanReadableErr
      (apdu.Response.mk rdata 0x6881) = errors.New "already mutually authenticated" :=
    resolve_of_index_found _ _ _ (by simp only [NewCommandMutualAuthenticate]; decide)
  have h82 : (NewCommandMutualAuthenticate lib data).HumanReadableErr
      (apdu.Response.mk rdata 0x6982) = errors.New "secret length invalid" :=
    resolve_of_index_found _ _ _ (by simp only [NewCommandMutualAuthenticate]; decide)
  refine ⟨h81, by decide, by decide, rfl, ?_, ?_, ?_⟩
  · rw [h85, h81]
    decide
  · rw [h85, h82]
    decide
  · rw [h81, h82]
    decide

/-- Claim C16. The skipped offset: the keys of the table of
`NewCommandDestroyPhonon` are, as written, SW_CONDITIONS_NOT_SATISFIED,
SW_WRONG_LENGTH, SW_WRONG_DATA and SW_FILE_INVALID with the offsets 0, 1 and 3;
the skipped value SW_FILE_INVALID + 2 equals SW_CONDITIONS_NOT_SATISFIED =
0x6985, which is a key of the table, so that an entry written with offset 2
would repeat a key; status 0x6985 resolves to `backend.ErrPINNotEntered` and
status 0x6986 to "phonon already deleted". -/
theorem destroyPhonon_skipped_offset (lib : Lib) (data rdata : List Nat) :
    (NewCommandDestroyPhonon lib data).PossibleErrs.keys
      = [SW_CONDITIONS_NOT_SATISFIED, SW_WRONG_LENGTH, SW_WRONG_DATA,
         SW_FILE_INVALID + 0, SW_FILE_INVALID + 1, SW_FILE_INVALID + 3]
    ∧ SW_FILE_INVALID + 2 = SW_CONDITIONS_NOT_SATISFIED
    ∧ SW_FILE_INVALID + 2 = 0x6985
    ∧ SW_FILE_INVALID + 2 ∈ (NewCommandDestroyPhonon lib data).PossibleErrs.keys
    ∧ ¬ ((NewCommandDestroyPhonon lib data).PossibleErrs.keys ++ [SW_FILE_INVALID + 2]).Nodup
    ∧ (NewCommandDestroyPhonon lib data).HumanReadableErr (apdu.Response.mk rdata 0x6985)
      = backend.ErrPINNotEntered
    ∧ (NewCommandDestroyPhonon lib data).HumanReadableErr (apdu.Response.mk rdata 0x6986)
      = errors.New "phonon already deleted" := by
  refine ⟨rfl, by decide, by decide, ?_, ?_, ?_, ?_⟩
  · simp only [NewCommandDestroyPhonon]
    decide
  · simp only [NewCommandDestroyPhonon]
    decide
  · exact resolve_of_index_found _ _ _ (by simp only [NewCommandDestroyPhonon]; decide)
  · exact resolve_of_index_found _ _ _ (by simp only [NewCommandDestroyPhonon]; decide)

/-- Claim C17. Exact match: for every PIN, the descriptor of `NewCommandVerifyPIN`
resolves a status word to the error "pin verification failed" exactly when the
status word is 0x063C; every other status word different from 0x9000 resolves
to `backend.ErrDefault`, in particular each of the sixteen words 0x63C0 to
0x63CF. -/
theorem verifyPIN_exact_match (lib : Lib) (pin : GoString) (rdata : List Nat) :
    (∀ sw : Nat, (NewCommandVerifyPIN lib pin).HumanReadableErr (apdu.Response.mk rdata sw)
        = errors.New "pin verification failed" ↔ sw = 0x063C)
    ∧ (∀ sw : Nat, sw ≠ 0x063C → sw ≠ 0x9000 →
        (NewCommandVerifyPIN lib pin).HumanReadableErr (apdu.Response.mk rdata sw)
          = backend.ErrDefault)
    ∧ (∀ sw : Nat, 0x63C0 ≤ sw → sw ≤ 0x63CF →
        (NewCommandVerifyPIN lib pin).HumanReadableErr (apdu.Response.mk rdata sw)
          = backend.ErrDefault) := by
  have hfound : (NewCommandVerifyPIN lib pin).HumanReadableErr (apdu.Response.mk rdata 0x063C)
      = errors.New "pin verification failed" :=
    resolve_of_index_found _ _ _ (by simp only [NewCommandVerifyPIN]; decide)
  have hother : ∀ sw : Nat, sw ≠ 0x063C → sw ≠ 0x9000 →
      (NewCommandVerifyPIN lib pin).HumanReadableErr (apdu.Response.mk rdata sw)
        = backend.ErrDefault := by
    intro sw h1 h2
    refine resolve_of_key_absent _ _ ?_ h2
    simp only [NewCommandVerifyPIN, CmdErrTable.keys, SW_PIN_VERIFY_FAILED, List.map,
      List.mem_cons, List.mem_nil_iff, or_false]
    omega
  refine ⟨?_, hother, ?_⟩
  · intro sw
    constructor
    · intro h
      by_contra hsw
      by_cases h9 : sw = 0x9000
      · subst h9
        rw [HumanReadableErr_success _ _ (by simp only [NewCommandVerifyPIN]; decide)] at h
        exact absurd h (by decide)
      · rw [hother sw hsw h9] at h
        exact absurd h (by decide)
    · intro h
      subst h
      exact hfound
  · intro sw h1 h2
    exact hother sw (by omega) (by omega)

/-- The status word 0x63C5 shares the leading hexadecimal digits 63C and resolves
to the default error. -/
theorem verifyPIN_exact_match_witness :
    (NewCommandVerifyPIN sampleLib (GoString.mk [0x31, 0x32])).HumanReadableErr
        (apdu.Response.mk [] 0x63C5) = backend.ErrDefault :=
  (verifyPIN_exact_match sampleLib (GoString.mk [0x31, 0x32]) []).2.2 0x63C5
    (by decide) (by decide)

/-- Claim C20. Send-phonons parameter encoding: for every data, p2Length and
extendedRequest, the descriptor of `NewCommandSendPhonons` has P1 = 0x01 when
extendedRequest is true and P1 = 0x00 otherwise, P2 = p2Length, instruction
0x35 and payload data, and its error table is the same for both values of
extendedRequest. -/
theorem sendPhonons_encoding (lib : Lib) (data : List Nat) (p2Length : Nat)
    (extendedRequest : Bool) :
    (NewCommandSendPhonons lib data p2Length extendedRequest).ApduCmd.P1
      = (if extendedRequest = true then 0x01 else 0x00)
    ∧ (NewCommandSendPhonons lib data p2Length true).ApduCmd.P1 = 0x01
    ∧ (NewCommandSendPhonons lib data p2Length false).ApduCmd.P1 = 0x00
    ∧ (NewCommandSendPhonons lib data p2Length extendedRequest).ApduCmd.P2 = p2Length
    ∧ (NewCommandSendPhonons lib data p2Length extendedRequest).ApduCmd.Ins = 0x35
    ∧ (NewCommandSendPhonons lib data p2Length extendedRequest).ApduCmd.Data = data
    ∧ (NewCommandSendPhonons lib data p2Length true).PossibleErrs
      = (NewCommandSendPhonons lib data p2Length false).PossibleErrs := by
  refine ⟨rfl, rfl, rfl, rfl, rfl, rfl, rfl⟩

/-! ## Values bound in the catalog tables -/

theorem lookupEntries_mem (es : List (Int × error)) (key : Int) (v : error)
    (h : lookupEntries es key = (v, true)) : (key, v) ∈ es := by
  induction es with
  | nil => simp [lookupEntries] at h
  | cons kv rest ih =>
    obtain ⟨k, w⟩ := kv
    by_cases hk : k = key
    · simp only [lookupEntries, hk, if_true, Prod.mk.injEq, and_true] at h
      simp [hk, h]
    · simp only [lookupEntries, hk, if_false] at h
      exact List.mem_cons_of_mem _ (ih h)

theorem index_mem_entries (m : CmdErrTable) (key : Int) (v : error)
    (h : m.index key = (v, true)) : (key, v) ∈ m.entries := by
  cases m with
  | none => simp [CmdErrTable.index] at h
  | some es => exact lookupEntries_mem es key v h

theorem index_of_mem_keys (m : CmdErrTable) (key : Int) (h : key ∈ m.keys) :
    ∃ v, m.index key = (v, true) ∧ v ∈ m.values := by
  have hfound : (m.index key).2 = true := (index_found_iff m key).2 h
  refine ⟨(m.index key).1, ?_, ?_⟩
  · rw [← hfound]
  · have hmem : (key, (m.index key).1) ∈ m.entries :=
      index_mem_entries m key _ (by rw [← hfound])
    cases m with
    | none => simp [CmdErrTable.entries] at hmem
    | some es =>
      simp only [CmdErrTable.values, CmdErrTable.entries] at *
      exact List.mem_map_of_mem Prod.snd hmem

/-- With no nil value and without the key 0x9000 in the table, the resolver
returns nil exactly for the status word 0x9000. -/
theorem resolve_nil_iff (cmd : Command) (res : apdu.Response)
    (hv : nil ∉ cmd.PossibleErrs.values) (hk : SW_NO_ERROR ∉ cmd.PossibleErrs.keys) :
    cmd.HumanReadableErr res = nil ↔ res.Sw = 0x9000 := by
  by_cases hkey : (res.Sw : Int) ∈ cmd.PossibleErrs.keys
  · obtain ⟨v, hidx, hmem⟩ := index_of_mem_keys _ _ hkey
    rw [resolve_of_index_found _ _ _ hidx]
    constructor
    · intro hnil
      exact absurd (hnil ▸ hmem) hv
    · intro hsw
      exfalso
      apply hk
      have : (res.Sw : Int) = SW_NO_ERROR := by
        show (res.Sw : Int) = 0x9000
        omega
      rw [← this]
      exact hkey
  · by_cases hsw : res.Sw = 0x9000
    · have hres : res = apdu.Response.mk res.Data 0x9000 := by
        cases res
        simp only [apdu.Response.mk.injEq, true_and]
        exact hsw
      constructor
      · intro _
        exact hsw
      · intro _
        rw [hres]
        exact HumanReadableErr_success _ _ hk
    · rw [resolve_of_key_absent _ _ hkey hsw]
      constructor
      · intro h
        exact absurd h (by decide)
      · intro h
        exact absurd h hsw

theorem catalog_no_error_not_key (lib : Lib) (c : CatalogCall lib) :
    SW_NO_ERROR ∉ (c.build lib).PossibleErrs.keys := by
  cases c <;> simp only [CatalogCall.build, NewCommandIdentifyCard,
      NewCommandVerifyPIN, NewCommandChangePIN, NewCommandCreatePhonon, NewCommandSetDescriptor,
      NewCommandListPhonons, NewCommandGetPhononPubKey, NewCommandDestroyPhonon,
      NewCommandSendPhonons, NewCommandReceivePhonons, NewCommandSetReceiveList,
      NewCommandTransactionAck, NewCommandInitCardPairing, NewCommandCardPair,
      NewCommandCardPair2, NewCommandFinalizeCardPair, NewCommandLoadCertAuthority,
      NewCommandInstallCert, NewCommandSelectPhononApplet, NewCommandPairStep1,
      NewCommandPairStep2, NewCommandUnpair, NewCommandOpenSecureChannel,
      NewCommandMutualAuthenticate, NewCommandInit, NewCommandGenerateInvoice,
      NewCommandReceiveInvoice, NewCommandGetFriendlyName, NewCommandSetFriendlyName,
      NewCommandGetAvailableMemory, NewCommandMineNativePhonon] <;> decide

/-- Claim C18. No silent success: no catalog table binds a status word to the
nil error; for every catalog constructor, all of its arguments and every
response whose status word differs from 0x9000, `HumanReadableErr` returns a
non-nil error, and it returns nil if and only if the status word is 0x9000. -/
theorem catalog_no_silent_success (lib : Lib) (c : CatalogCall lib) (res : apdu.Response) :
    nil ∉ (c.build lib).PossibleErrs.values
    ∧ (res.Sw ≠ 0x9000 → (c.build lib).HumanReadableErr res ≠ nil)
    ∧ ((c.build lib).HumanReadableErr res = nil ↔ res.Sw = 0x9000) := by
  have hv : nil ∉ (c.build lib).PossibleErrs.values := by
    cases c <;> simp only [CatalogCall.build, NewCommandIdentifyCard,
      NewCommandVerifyPIN, NewCommandChangePIN, NewCommandCreatePhonon, NewCommandSetDescriptor,
      NewCommandListPhonons, NewCommandGetPhononPubKey, NewCommandDestroyPhonon,
      NewCommandSendPhonons, NewCommandReceivePhonons, NewCommandSetReceiveList,
      NewCommandTransactionAck, NewCommandInitCardPairing, NewCommandCardPair,
      NewCommandCardPair2, NewCommandFinalizeCardPair, NewCommandLoadCertAuthority,
      NewCommandInstallCert, NewCommandSelectPhononApplet, NewCommandPairStep1,
      NewCommandPairStep2, NewCommandUnpair, NewCommandOpenSecureChannel,
      NewCommandMutualAuthenticate, NewCommandInit, NewCommandGenerateInvoice,
      NewCommandReceiveInvoice, NewCommandGetFriendlyName, NewCommandSetFriendlyName,
      NewCommandGetAvailableMemory, NewCommandMineNativePhonon] <;> decide
  have hiff := resolve_nil_iff (c.build lib) res hv (catalog_no_error_not_key lib c)
  exact ⟨hv, fun hsw hnil => hsw (hiff.1 hnil), hiff⟩

/-- The status word 0x6A82 is no key of the send-phonons table and resolves to a
non-nil error. -/
theorem catalog_no_silent_success_witness :
    (NewCommandSendPhonons sampleLib [1, 2] 2 false).HumanReadableErr
        (apdu.Response.mk [] 0x6A82) ≠ nil :=
  (catalog_no_silent_success sampleLib (CatalogCall.SendPhonons [1, 2] 2 false)
    (apdu.Response.mk [] 0x6A82)).2.1 (by decide)

/-- Claim C19. PIN-not-entered: in every catalog table `backend.ErrPINNotEntered`
is bound to the key 0x6985 (SW_CONDITIONS_NOT_SATISFIED) only; every catalog
table that has the key 0x6985 binds it to `backend.ErrPINNotEntered`, except
the tables of `NewCommandReceivePhonons` and `NewCommandMutualAuthenticate`,
which bind it to a descriptive error made by `errors.New`, different from
`ErrPINNotEntered`. -/
theorem pinNotEntered_single_status_word (lib : Lib) (c : CatalogCall lib)
    (packet data : List Nat) :
    (∀ key : Int, (c.build lib).PossibleErrs.index key = (backend.ErrPINNotEntered, true) →
        key = 0x6985)
    ∧ (SW_CONDITIONS_NOT_SATISFIED ∈ (c.build lib).PossibleErrs.keys →
        c.isReceivePhononsOrMutualAuthenticate = false →
        (c.build lib).PossibleErrs.index 0x6985 = (backend.ErrPINNotEntered, true))
    ∧ (NewCommandReceivePhonons lib packet).PossibleErrs.index 0x6985
        = (errors.New "phonon recipt conditions not met", true)
    ∧ (NewCommandMutualAuthenticate lib data).PossibleErrs.index 0x6985
        = (errors.New "authentication key not initialized", true)
    ∧ errors.New "phonon recipt conditions not met" ≠ backend.ErrPINNotEntered
    ∧ errors.New "authentication key not initialized" ≠ backend.ErrPINNotEntered := by
  have hentries : ∀ kv ∈ (c.build lib).PossibleErrs.entries,
      kv.2 = backend.ErrPINNotEntered → kv.1 = 0x6985 := by
    cases c <;> simp only [CatalogCall.build, NewCommandIdentifyCard,
      NewCommandVerifyPIN, NewCommandChangePIN, NewCommandCreatePhonon, NewCommandSetDescriptor,
      NewCommandListPhonons, NewCommandGetPhononPubKey, NewCommandDestroyPhonon,
      NewCommandSendPhonons, NewCommandReceivePhonons, NewCommandSetReceiveList,
      NewCommandTransactionAck, NewCommandInitCardPairing, NewCommandCardPair,
      NewCommandCardPair2, NewCommandFinalizeCardPair, NewCommandLoadCertAuthority,
      NewCommandInstallCert, NewCommandSelectPhononApplet, NewCommandPairStep1,
      NewCommandPairStep2, NewCommandUnpair, NewCommandOpenSecureChannel,
      NewCommandMutualAuthenticate, NewCommandInit, NewCommandGenerateInvoice,
      NewCommandReceiveInvoice, NewCommandGetFriendlyName, NewCommandSetFriendlyName,
      NewCommandGetAvailableMemory, NewCommandMineNativePhonon] <;> decide
  refine ⟨?_, ?_, ?_, ?_, by decide, by decide⟩
  · intro key h
    exact hentries _ (index_mem_entries _ _ _ h) rfl
  · cases c <;> simp only [CatalogCall.build, NewCommandIdentifyCard,
      NewCommandVerifyPIN, NewCommandChangePIN, NewCommandCreatePhonon, NewCommandSetDescriptor,
      NewCommandListPhonons, NewCommandGetPhononPubKey, NewCommandDestroyPhonon,
      NewCommandSendPhonons, NewCommandReceivePhonons, NewCommandSetReceiveList,
      NewCommandTransactionAck, NewCommandInitCardPairing, NewCommandCardPair,
      NewCommandCardPair2, NewCommandFinalizeCardPair, NewCommandLoadCertAuthority,
      NewCommandInstallCert, NewCommandSelectPhononApplet, NewCommandPairStep1,
      NewCommandPairStep2, NewCommandUnpair, NewCommandOpenSecureChannel,
      NewCommandMutualAuthenticate, NewCommandInit, NewCommandGenerateInvoice,
      NewCommandReceiveInvoice, NewCommandGetFriendlyName, NewCommandSetFriendlyName,
      NewCommandGetAvailableMemory, NewCommandMineNativePhonon,
      CatalogCall.isReceivePhononsOrMutualAuthenticate] <;> decide
  · simp only [NewCommandReceivePhonons]
    decide
  · simp only [NewCommandMutualAuthenticate]
    decide

/-- The table of `NewCommandCreatePhonon` has the key 0x6985 and binds it to
`backend.ErrPINNotEntered`. -/
theorem pinNotEntered_single_status_word_witness :
    (NewCommandCreatePhonon sampleLib 1).PossibleErrs.index 0x6985
      = (backend.ErrPINNotEntered, true) :=
  (pinNotEntered_single_status_word sampleLib (CatalogCall.CreatePhonon 1) [] []).2.1
    (by decide) (by decide)

/-! ## What the catalog does not check -/

/-- Claim C13 fails on the code: `NewCommandSetDescriptor` called with 256 bytes
returns a descriptor whose payload has 256 bytes, more than 255. -/
theorem payload_length_bound_counterexample :
    ((CatalogCall.SetDescriptor (List.replicate 256 0) : CatalogCall sampleLib).build
        sampleLib).ApduCmd.Data.length = 256
    ∧ ¬ ((CatalogCall.SetDescriptor (List.replicate 256 0) : CatalogCall sampleLib).build
        sampleLib).ApduCmd.Data.length ≤ 255
    ∧ ¬ (∀ c : CatalogCall sampleLib, (c.build sampleLib).ApduCmd.Data.length ≤ 255) := by
  have hlen : ((CatalogCall.SetDescriptor (List.replicate 256 0) : CatalogCall sampleLib).build
      sampleLib).ApduCmd.Data.length = 256 := by
    show (List.replicate 256 0).length = 256
    exact List.length_replicate 256 0
  refine ⟨hlen, by omega, ?_⟩
  intro hall
  have h := hall (CatalogCall.SetDescriptor (List.replicate 256 0))
  omega

/-- Claim C13 as amended: the constructors built on `apdu.NewCommand` do not bound
the payload themselves; when the byte sequence (or the string) passed by the
caller has at most 255 bytes, so has the payload, and the constructors without
a byte-sequence argument carry a payload of at most one byte. -/
theorem payload_length_of_argument (lib : Lib) (data : List Nat) (str : GoString)
    (curveType p1 p2 p2Length difficulty : Nat) (extendedRequest : Bool)
    (hdata : data.length ≤ 255) (hstr : str.toBytes.length ≤ 255) :
    (NewCommandIdentifyCard lib data).ApduCmd.Data.length ≤ 255
    ∧ (NewCommandSetDescriptor lib data).ApduCmd.Data.length ≤ 255
    ∧ (NewCommandListPhonons lib p1 p2 data).ApduCmd.Data.length ≤ 255
    ∧ (NewCommandGetPhononPubKey lib data).ApduCmd.Data.length ≤ 255
    ∧ (NewCommandDestroyPhonon lib data).ApduCmd.Data.length ≤ 255
    ∧ (NewCommandSendPhonons lib data p2Length extendedRequest).ApduCmd.Data.length ≤ 255
    ∧ (NewCommandReceivePhonons lib data).ApduCmd.Data.length ≤ 255
    ∧ (NewCommandSetReceiveList lib data).ApduCmd.Data.length ≤ 255
    ∧ (NewCommandTransactionAck lib data).ApduCmd.Data.length ≤ 255
    ∧ (NewCommandInitCardPairing lib data).ApduCmd.Data.length ≤ 255
    ∧ (NewCommandCardPair lib data).ApduCmd.Data.length ≤ 255
    ∧ (NewCommandCardPair2 lib data).ApduCmd.Data.length ≤ 255
    ∧ (NewCommandFinalizeCardPair lib data).ApduCmd.Data.length ≤ 255
    ∧ (NewCommandLoadCertAuthority lib data).ApduCmd.Data.length ≤ 255
    ∧ (NewCommandInstallCert lib data).ApduCmd.Data.length ≤ 255
    ∧ (NewCommandVerifyPIN lib str).ApduCmd.Data.length ≤ 255
    ∧ (NewCommandChangePIN lib str).ApduCmd.Data.length ≤ 255
    ∧ (NewCommandSetFriendlyName lib str).ApduCmd.Data.length ≤ 255
    ∧ (NewCommandCreatePhonon lib curveType).ApduCmd.Data.length = 1
    ∧ (NewCommandGenerateInvoice lib).ApduCmd.Data.length = 1
    ∧ (NewCommandReceiveInvoice lib).ApduCmd.Data.length = 1
    ∧ (NewCommandGetFriendlyName lib).ApduCmd.Data.length = 1
    ∧ (NewCommandGetAvailableMemory lib).ApduCmd.Data.length = 0
    ∧ (NewCommandMineNativePhonon lib difficulty).ApduCmd.Data.length = 0 :=
  ⟨hdata, hdata, hdata, hdata, hdata, hdata, hdata, hdata, hdata, hdata, hdata, hdata, hdata,
   hdata, hdata, hstr, hstr, hstr, rfl, rfl, rfl, rfl, rfl, rfl⟩

/-- A 32-byte nonce and a four-byte PIN. -/
theorem payload_length_of_argument_witness :
    (List.replicate 32 7).length ≤ 255
    ∧ (GoString.mk [0x31, 0x32, 0x33, 0x34]).toBytes.length ≤ 255
    ∧ (NewCommandIdentifyCard sampleLib (List.replicate 32 7)).ApduCmd.Data.length ≤ 255
    ∧ (NewCommandVerifyPIN sampleLib (GoString.mk [0x31, 0x32, 0x33, 0x34])).ApduCmd.Data.length
        ≤ 255 :=
  ⟨by decide, by decide,
   (payload_length_of_argument sampleLib (List.replicate 32 7)
      (GoString.mk [0x31, 0x32, 0x33, 0x34]) 0 0 0 0 0 false (by decide) (by decide)).1,
   (payload_length_of_argument sampleLib (List.replicate 32 7)
      (GoString.mk [0x31, 0x32, 0x33, 0x34]) 0 0 0 0 0 false (by decide)
      (by decide)).2.2.2.2.2.2.2.2.2.2.2.2.2.2.2.1⟩

/-! ## Ordering of the handshake -/

theorem invokeStep_keeps_channel_closed (phase : Phase) (step : Step) (cmd : Command)
    (hphase : phase.channelOpened = false) (hstep : step ≠ Step.OpenSecureChannel) :
    (invokeStep phase step cmd).phase.confirmed.channelOpened = false := by
  cases phase <;> cases step <;>
    simp_all [invokeStep, Step.sources, Step.target, StepOutcome.phase, Phase.confirmed,
      Phase.channelOpened]

theorem runSteps_keeps_channel_closed (steps : List (Step × Command)) (phase : Phase)
    (hphase : phase.channelOpened = false)
    (hsteps : ∀ sc ∈ steps, sc.1 ≠ Step.OpenSecureChannel) :
    (runSteps phase steps).channelOpened = false := by
  induction steps generalizing phase with
  | nil => exact hphase
  | cons sc rest ih =>
    obtain ⟨step, cmd⟩ := sc
    have hstep : step ≠ Step.OpenSecureChannel := hsteps (step, cmd) (List.mem_cons_self _ _)
    exact ih _ (invokeStep_keeps_channel_closed phase step cmd hphase hstep)
      (fun sc hsc => hsteps sc (List.mem_cons_of_mem _ hsc))

theorem invokeStep_mutuallyAuthenticate_rejected (phase : Phase) (cmd : Command)
    (hphase : phase.channelOpened = false) :
    invokeStep phase Step.MutuallyAuthenticate cmd = StepOutcome.rejected := by
  cases phase <;> simp_all [invokeStep, Step.sources, Phase.channelOpened]

/-- The handshake invoked in order, every command answered with success, ends
with the secure channel established. -/
theorem runSteps_in_order (c1 c3 c4 c5 c6 c7 : Command) :
    runSteps Phase.Idle [(Step.SelectApplet, c1), (Step.Pairing1, c3), (Step.Pairing2, c4),
      (Step.FinalizePairing, c5), (Step.OpenSecureChannel, c6),
      (Step.MutuallyAuthenticate, c7)] = Phase.SecureChannelEstablished := by
  simp [runSteps, invokeStep, Step.sources, Step.target, StepOutcome.phase, Phase.confirmed]

/-- Claim C15. Handshake ordering: on a session on which no secure channel has
been opened yet (the fresh session in `Idle`, and every session reached from
it by steps none of which is the open-secure-channel step), invoking the
mutual-authenticate step with the descriptor of `NewCommandMutualAuthenticate`
is rejected locally: the outcome is the sequencing error, no command
descriptor is handed over for transmission, and the session is aborted. In
order, the descriptor of `NewCommandOpenSecureChannel` is sent from `Paired`
and the descriptor of `NewCommandMutualAuthenticate` after it. -/
theorem mutuallyAuthenticate_before_openSecureChannel_rejected (lib : Lib)
    (phase : Phase) (steps : List (Step × Command)) (data publicKey : List Nat) (index : Nat)
    (hphase : phase.channelOpened = false)
    (hsteps : ∀ sc ∈ steps, sc.1 ≠ Step.OpenSecureChannel) :
    invokeStep Phase.Idle Step.MutuallyAuthenticate (NewCommandMutualAuthenticate lib data)
      = StepOutcome.rejected
    ∧ invokeStep phase Step.MutuallyAuthenticate (NewCommandMutualAuthenticate lib data)
      = StepOutcome.rejected
    ∧ invokeStep (runSteps Phase.Idle steps) Step.MutuallyAuthenticate
        (NewCommandMutualAuthenticate lib data) = StepOutcome.rejected
    ∧ (invokeStep (runSteps Phase.Idle steps) Step.MutuallyAuthenticate
        (NewCommandMutualAuthenticate lib data)).isSequencingError = true
    ∧ (invokeStep (runSteps Phase.Idle steps) Step.MutuallyAuthenticate
        (NewCommandMutualAuthenticate lib data)).sent = none
    ∧ (invokeStep (runSteps Phase.Idle steps) Step.MutuallyAuthenticate
        (NewCommandMutualAuthenticate lib data)).phase = Phase.Aborted AbortReason.OutOfOrder
    ∧ invokeStep Phase.Paired Step.OpenSecureChannel
        (NewCommandOpenSecureChannel lib index publicKey)
      = StepOutcome.send (NewCommandOpenSecureChannel lib index publicKey)
          Phase.SecureChannelOpening
    ∧ invokeStep (invokeStep Phase.Paired Step.OpenSecureChannel
          (NewCommandOpenSecureChannel lib index publicKey)).phase.confirmed
        Step.MutuallyAuthenticate (NewCommandMutualAuthenticate lib data)
      = StepOutcome.send (NewCommandMutualAuthenticate lib data)
          Phase.MutuallyAuthenticating := by
  have hrun : invokeStep (runSteps Phase.Idle steps) Step.MutuallyAuthenticate
      (NewCommandMutualAuthenticate lib data) = StepOutcome.rejected :=
    invokeStep_mutuallyAuthenticate_rejected _ _
      (runSteps_keeps_channel_closed steps Phase.Idle rfl hsteps)
  refine ⟨invokeStep_mutuallyAuthenticate_rejected _ _ rfl,
    invokeStep_mutuallyAuthenticate_rejected _ _ hphase, hrun, ?_, ?_, ?_, ?_, ?_⟩
  · rw [hrun]
    rfl
  · rw [hrun]
    rfl
  · rw [hrun]
    rfl
  · simp [invokeStep, Step.sources, Step.target]
  · simp [invokeStep, Step.sources, Step.target, StepOutcome.phase, Phase.confirmed]

/-- A session that selected the applet and completed the pairing, but did not
open the secure channel: the mutual-authenticate step is rejected. -/
theorem mutuallyAuthenticate_before_openSecureChannel_rejected_witness :
    (runSteps Phase.Idle
        [(Step.SelectApplet, NewCommandSelectPhononApplet sampleLib),
         (Step.Pairing1, NewCommandPairStep1 sampleLib [1, 2] [3, 4]),
         (Step.Pairing2, NewCommandPairStep2 sampleLib [5, 6]),
         (Step.FinalizePairing, NewCommandFinalizeCardPair sampleLib [7])] = Phase.Paired)
    ∧ invokeStep
        (runSteps Phase.Idle
          [(Step.SelectApplet, NewCommandSelectPhononApplet sampleLib),
           (Step.Pairing1, NewCommandPairStep1 sampleLib [1, 2] [3, 4]),
           (Step.Pairing2, NewCommandPairStep2 sampleLib [5, 6]),
           (Step.FinalizePairing, NewCommandFinalizeCardPair sampleLib [7])])
        Step.MutuallyAuthenticate (NewCommandMutualAuthenticate sampleLib [0x01])
      = StepOutcome.rejected :=
  ⟨by simp [runSteps, invokeStep, Step.sources, Step.target, StepOutcome.phase,
      Phase.confirmed],
   (mutuallyAuthenticate_before_openSecureChannel_rejected sampleLib Phase.Paired
      [(Step.SelectApplet, NewCommandSelectPhononApplet sampleLib),
       (Step.Pairing1, NewCommandPairStep1 sampleLib [1, 2] [3, 4]),
       (Step.Pairing2, NewCommandPairStep2 sampleLib [5, 6]),
       (Step.FinalizePairing, NewCommandFinalizeCardPair sampleLib [7])]
      [0x01] [] 0 (by decide) (by simp)).2.2.1⟩

end smartcard

namespace util

/-! ## The public-key parser -/

/-- The two accepted vectors of `TestParseECCPubKey` are accepted without error. -/
theorem ParseECCPubKey_accepts_test_vectors :
    ParseECCPubKey uncompressedKey
      = some (some (ECCPubKey.uncompressed uncompressedKey.tail), nil)
    ∧ ParseECCPubKey compressedPositiveKey
      = some (some (ECCPubKey.compressed 0x02 compressedPositiveKey.tail), nil) := by
  constructor <;> decide

/-- Claim C14. Public-key leading byte: for every non-empty buffer whose first
byte is none of 0x02, 0x03 and 0x04, `ParseECCPubKey` returns no key and the
error `ErrInvalidECCPubKeyFormat`, which is not nil. -/
theorem ParseECCPubKey_rejects_other_lead (lead : Nat) (rest : List Nat)
    (h2 : lead ≠ 0x02) (h3 : lead ≠ 0x03) (h4 : lead ≠ 0x04) :
    ParseECCPubKey (lead :: rest) = some (none, ErrInvalidECCPubKeyFormat)
    ∧ ErrInvalidECCPubKeyFormat ≠ nil := by
  constructor
  · simp [ParseECCPubKey, h2, h3, h4]
  · decide

/-- The vector `invalidKey` of the test: 65 bytes with leading byte 0x05. -/
theorem ParseECCPubKey_rejects_other_lead_witness :
    invalidKey.length = 65
    ∧ ParseECCPubKey invalidKey = some (none, ErrInvalidECCPubKeyFormat) :=
  ⟨by decide, (ParseECCPubKey_rejects_other_lead 0x05 invalidKey.tail
      (by decide) (by decide) (by decide)).1⟩

end util
